import Mathlib

/-!
Verification development for the cargo-aprz dependency appraisal tool.

This file gives a shallow embedding, in Lean 4, of the core data model and
algorithms of the repository: the advisory counting logic
(src/facts/advisories/advisory_data.rs), the request tracker
(src/facts/request_tracker.rs), the delayed-visibility progress reporter
(src/facts/progress_reporter.rs), the allow list
(cargo-aprz-lib/src/commands/config.rs), the license policy
(src/config/policies/license_policy.rs), the metric calculator
(src/ranking/metric_calculator.rs), the ranker (src/ranking/ranker.rs) and
the advisory scan (cargo-aprz-lib/src/facts/advisories/provider.rs).

Modelling conventions:
- Rust u64 / u32 / u8 / usize values are Nat; where the source can wrap
  (AtomicU64.fetch_add, u64 `+=` in release builds) the embedding reduces
  modulo 2 ^ 64 explicitly.
- Rust f64 values (policy points, scores, thresholds) are modelled as Rat;
  f64::round (round half away from zero) is modelled by rust_round below.
- HashMap<Metric, _> result maps are modelled as functions
  Metric -> Option _ ; HashMap-grouped association maps are modelled as
  association lists in first-insertion order (iteration order of a Rust
  HashMap is unspecified; all claims proved about them are order independent).
- chrono DateTime values are Unix seconds (Int); std Instant / Duration
  values are milliseconds (Nat).
- a Rust panic (unreachable!, expect) is Except.error.
-/

namespace CargoAprz

/-- Modulus of the Rust u64 type. -/
def U64MOD : Nat := 2 ^ 64

/-! ## Basic enums (src/misc) -/

/-- From src/misc/dependency_type.rs: enum DependencyType. -/
inductive DependencyType where
  | standard
  | dev
  | build
deriving DecidableEq, Repr

/-- From src/misc/dependency_types.rs: DependencyTypes wraps a
HashSet of DependencyType; modelled as a list, only membership is used. -/
structure DependencyTypes where
  types : List DependencyType
deriving DecidableEq, Repr

/-- DependencyTypes::contains. -/
def DependencyTypes.contains (s : DependencyTypes) (d : DependencyType) : Bool :=
  s.types.contains d

/-- DependencyTypes::default is the singleton containing Standard. -/
def DependencyTypes.default : DependencyTypes := ⟨[DependencyType.standard]⟩

/-! ## ProviderResult (src/facts/provider_result.rs) -/

/-- From src/facts/provider_result.rs: enum ProviderResult with variants
Found, CrateNotFound, VersionNotFound and Error; the Arc of anyhow::Error
payload is modelled by its display string. -/
inductive ProviderResult (T : Type) where
  | found (data : T)
  | crateNotFound
  | versionNotFound
  | error (msg : String)
deriving DecidableEq, Repr

/-- ProviderResult::is_found. -/
def ProviderResult.is_found {T : Type} : ProviderResult T → Bool
  | .found _ => true
  | _ => false

/-! ## Advisory data (src/facts/advisories/advisory_data.rs) -/

/-- From rustsec (third party): the informational kind of an advisory.
rustsec::advisory::Informational is non exhaustive with recognized variants
Notice, Unmaintained and Unsound used by this code; every other variant is
modelled by the catch all constructor. -/
inductive Informational where
  | notice
  | unmaintained
  | unsound
  | otherKind
deriving DecidableEq, Repr

/-- From rustsec (third party): the CVSS severity of an advisory. -/
inductive Severity where
  | sevNone
  | low
  | medium
  | high
  | critical
deriving DecidableEq, Repr

/-- From rustsec (third party): the fields of rustsec::Advisory consumed by
this repository, namely the package name, the informational kind, the CVSS
severity when present, and the version range test
advisory.versions.is_vulnerable. -/
structure Advisory where
  package : String
  informational : Option Informational
  cvss : Option Severity
  versions_is_vulnerable : Nat × Nat × Nat → Bool

/-- From src/facts/advisories/advisory_data.rs: struct AdvisoryData, the
per crate advisory counters, all u64 and zero by default. The chrono
timestamp is Unix seconds. -/
structure AdvisoryData where
  timestamp : Int := 0
  vulnerability_count : Nat := 0
  low_vulnerability_count : Nat := 0
  medium_vulnerability_count : Nat := 0
  high_vulnerability_count : Nat := 0
  critical_vulnerability_count : Nat := 0
  warning_count : Nat := 0
  notice_warning_count : Nat := 0
  unmaintained_warning_count : Nat := 0
  unsound_warning_count : Nat := 0
  yanked_warning_count : Nat := 0
  historical_vulnerability_count : Nat := 0
  historical_low_vulnerability_count : Nat := 0
  historical_medium_vulnerability_count : Nat := 0
  historical_high_vulnerability_count : Nat := 0
  historical_critical_vulnerability_count : Nat := 0
  historical_warning_count : Nat := 0
  historical_notice_warning_count : Nat := 0
  historical_unmaintained_warning_count : Nat := 0
  historical_unsound_warning_count : Nat := 0
  historical_yanked_warning_count : Nat := 0
deriving DecidableEq, Repr

/-- AdvisoryData::default (derived Default in the source). -/
def AdvisoryData.default : AdvisoryData := {}

/-- AdvisoryData::count_advisory_for_version: inlines
AdvisoryData::apply_advisory_counts with the version specific counter
fields. An informational advisory bumps the total warning count and the
bucket of its recognized kind (yanked has no rustsec Informational variant
and is never counted, the wildcard arm of the source match); otherwise the
total vulnerability count is bumped together with the CVSS severity bucket
when a CVSS rating is present. u64 increments wrap modulo 2 ^ 64. -/
def AdvisoryData.count_advisory_for_version (d : AdvisoryData) (a : Advisory) : AdvisoryData :=
  match a.informational with
  | some info =>
    let d := { d with warning_count := (d.warning_count + 1) % U64MOD }
    match info with
    | .notice => { d with notice_warning_count := (d.notice_warning_count + 1) % U64MOD }
    | .unmaintained =>
        { d with unmaintained_warning_count := (d.unmaintained_warning_count + 1) % U64MOD }
    | .unsound => { d with unsound_warning_count := (d.unsound_warning_count + 1) % U64MOD }
    | .otherKind => d
  | none =>
    let d := { d with vulnerability_count := (d.vulnerability_count + 1) % U64MOD }
    match a.cvss with
    | none => d
    | some s =>
      match s with
      | .sevNone => d
      | .low => { d with low_vulnerability_count := (d.low_vulnerability_count + 1) % U64MOD }
      | .medium =>
          { d with medium_vulnerability_count := (d.medium_vulnerability_count + 1) % U64MOD }
      | .high => { d with high_vulnerability_count := (d.high_vulnerability_count + 1) % U64MOD }
      | .critical =>
          { d with critical_vulnerability_count := (d.critical_vulnerability_count + 1) % U64MOD }

/-- AdvisoryData::count_advisory_historical: inlines
AdvisoryData::apply_advisory_counts with the historical counter fields. -/
def AdvisoryData.count_advisory_historical (d : AdvisoryData) (a : Advisory) : AdvisoryData :=
  match a.informational with
  | some info =>
    let d := { d with historical_warning_count := (d.historical_warning_count + 1) % U64MOD }
    match info with
    | .notice =>
        { d with historical_notice_warning_count :=
            (d.historical_notice_warning_count + 1) % U64MOD }
    | .unmaintained =>
        { d with historical_unmaintained_warning_count :=
            (d.historical_unmaintained_warning_count + 1) % U64MOD }
    | .unsound =>
        { d with historical_unsound_warning_count :=
            (d.historical_unsound_warning_count + 1) % U64MOD }
    | .otherKind => d
  | none =>
    let d := { d with historical_vulnerability_count :=
        (d.historical_vulnerability_count + 1) % U64MOD }
    match a.cvss with
    | none => d
    | some s =>
      match s with
      | .sevNone => d
      | .low =>
          { d with historical_low_vulnerability_count :=
              (d.historical_low_vulnerability_count + 1) % U64MOD }
      | .medium =>
          { d with historical_medium_vulnerability_count :=
              (d.historical_medium_vulnerability_count + 1) % U64MOD }
      | .high =>
          { d with historical_high_vulnerability_count :=
              (d.historical_high_vulnerability_count + 1) % U64MOD }
      | .critical =>
          { d with historical_critical_vulnerability_count :=
              (d.historical_critical_vulnerability_count + 1) % U64MOD }

/-- A call into the advisory counting interface of AdvisoryData. -/
inductive AdvisoryCall where
  | for_version (a : Advisory)
  | historical (a : Advisory)

/-- Apply one advisory counting call. -/
def advisory_call_step (d : AdvisoryData) : AdvisoryCall → AdvisoryData
  | .for_version a => d.count_advisory_for_version a
  | .historical a => d.count_advisory_historical a

/-- Run a sequence of advisory counting calls from the default data. -/
def run_advisory_calls (calls : List AdvisoryCall) : AdvisoryData :=
  calls.foldl advisory_call_step AdvisoryData.default

/-! ## Request tracker (src/facts/request_tracker.rs) -/

/-- From src/facts/request_tracker.rs: struct RequestCounter, a pair of
AtomicU64 counters. -/
structure RequestCounter where
  issued : Nat := 0
  completed : Nat := 0
deriving DecidableEq, Repr

/-- The counter table of a RequestTracker. RequestTracker::get_counter
inserts a default counter when the name is absent, so the HashMap behaves
exactly like a total function defaulting to zero counters. -/
def TrackerState : Type := String → RequestCounter

/-- RequestTracker::new: every name starts with zeroed counters. -/
def TrackerState.fresh : TrackerState := fun _ => {}

/-- A call into the mutating interface of RequestTracker. The u64 count
argument of add_many_requests is carried as a Nat and reduced modulo
2 ^ 64 where it is consumed. -/
inductive TrackerOp where
  | add_request (name : String)
  | add_many_requests (name : String) (count : Nat)
  | complete_request (name : String)
deriving DecidableEq, Repr

/-- Update the counter stored under one name. -/
def TrackerState.update (s : TrackerState) (name : String)
    (f : RequestCounter → RequestCounter) : TrackerState :=
  fun n => if n = name then f (s n) else s n

/-- One RequestTracker call. add_request does
issued.fetch_add(1) (wrapping), add_many_requests returns early on a zero
count and otherwise does issued.fetch_add(count), complete_request does
completed.fetch_add(1). update_progress only reads the counters and drives
the progress reporter, so it does not appear in the counter state. -/
def tracker_step (s : TrackerState) : TrackerOp → TrackerState
  | .add_request name =>
      s.update name (fun c => { c with issued := (c.issued + 1) % U64MOD })
  | .add_many_requests name count =>
      let count := count % U64MOD
      if count = 0 then s
      else s.update name (fun c => { c with issued := (c.issued + count) % U64MOD })
  | .complete_request name =>
      s.update name (fun c => { c with completed := (c.completed + 1) % U64MOD })

/-- Run a sequence of RequestTracker calls from a fresh tracker. -/
def run_tracker_ops (ops : List TrackerOp) : TrackerState :=
  ops.foldl tracker_step TrackerState.fresh

/-- Ghost accounting: how many issues one call contributes to a name. -/
def op_issued (name : String) : TrackerOp → Nat
  | .add_request n => if n = name then 1 else 0
  | .add_many_requests n count => if n = name then count % U64MOD else 0
  | .complete_request _ => 0

/-- Ghost accounting: how many completions one call contributes to a name. -/
def op_completed (name : String) : TrackerOp → Nat
  | .complete_request n => if n = name then 1 else 0
  | _ => 0

/-- Total number of issues a call sequence records for a name,
counted without wrapping. -/
def issued_total (ops : List TrackerOp) (name : String) : Nat :=
  (ops.map (op_issued name)).sum

/-- Total number of completions a call sequence records for a name,
counted without wrapping. -/
def completed_total (ops : List TrackerOp) (name : String) : Nat :=
  (ops.map (op_completed name)).sum

/-! ## Progress reporter (src/facts/progress_reporter.rs) -/

/-- From src/facts/progress_reporter.rs: struct DelayedProgressState. The
Instant start_time is the time origin, so the time parameter of every
operation below is the elapsed time since ProgressReporter::new, in
milliseconds. -/
structure DelayedProgressState where
  delay : Nat
  visible : Bool
  has_content : Bool
  is_indeterminate : Bool
deriving DecidableEq, Repr

/-- ProgressReporter::new. -/
def progress_new (delay : Nat) : DelayedProgressState :=
  { delay := delay, visible := false, has_content := false, is_indeterminate := false }

/-- ProgressReporter::ensure_visible at elapsed time t: becomes visible
only when not yet visible, content has been set, and the delay elapsed. -/
def ensure_visible (t : Nat) (s : DelayedProgressState) : DelayedProgressState :=
  if s.visible = false ∧ s.has_content = true ∧ s.delay ≤ t then
    { s with visible := true }
  else s

/-- ProgressReporter::force_visible: bypasses the delay but still requires
content. -/
def do_force_visible (s : DelayedProgressState) : DelayedProgressState :=
  if s.visible = false ∧ s.has_content = true then { s with visible := true } else s

/-- ProgressReporter::restore_determinate: leaves indeterminate mode; the
style and tick changes only touch the inner bar. -/
def restore_determinate (s : DelayedProgressState) : DelayedProgressState :=
  if s.is_indeterminate then { s with is_indeterminate := false } else s

/-- A call into the public interface of ProgressReporter.
set_prefix only forwards to the inner bar and is omitted; finish_and_clear
only touches the inner bar and is modelled as a no-op on this state. -/
inductive ProgressOp where
  | enable_determinate_mode (len : Nat)
  | set_position (pos : Nat)
  | set_message (msg : String)
  | tick_visibility
  | enable_indeterminate_mode
  | force_visible
  | finish_and_clear
deriving DecidableEq, Repr

/-- One ProgressReporter call, performed at elapsed time t. -/
def progress_step (s : DelayedProgressState) : ProgressOp × Nat → DelayedProgressState
  | (.enable_determinate_mode len, t) =>
      let s := restore_determinate s
      let s := if 0 < len then { s with has_content := true } else s
      ensure_visible t s
  | (.set_position _, t) => ensure_visible t (restore_determinate s)
  | (.set_message msg, t) =>
      let s := if msg.isEmpty then s else { s with has_content := true }
      ensure_visible t s
  | (.tick_visibility, t) => if s.visible = false then ensure_visible t s else s
  | (.enable_indeterminate_mode, t) =>
      ensure_visible t { s with is_indeterminate := true, has_content := true }
  | (.force_visible, _) => do_force_visible s
  | (.finish_and_clear, _) => s

/-- Run a sequence of timed ProgressReporter calls from a new reporter with
the given delay. -/
def run_progress (delay : Nat) (ops : List (ProgressOp × Nat)) : DelayedProgressState :=
  ops.foldl progress_step (progress_new delay)

/-! ## Semver versions and requirements (third party semver crate) -/

/-- From the semver crate (third party): a version without prerelease or
build metadata, which is all the allow list claims exercise. -/
structure Version where
  major : Nat
  minor : Nat
  patch : Nat
deriving DecidableEq, Repr

/-- From the semver crate (third party): the version requirement forms the
allow list claims exercise. star is the requirement written as a bare
asterisk and matches every version; caret_major m is the requirement
written as a caret followed by a bare major number, which per the semver
crate documentation matches exactly the versions whose major component
equals m (for versions without prerelease). -/
inductive VersionReq where
  | star
  | caret_major (major : Nat)
deriving DecidableEq, Repr

/-- semver::VersionReq::matches restricted to the modelled forms. -/
def VersionReq.matches : VersionReq → Version → Bool
  | .star, _ => true
  | .caret_major m, v => v.major == m

/-! ## Allow list (cargo-aprz-lib/src/commands/config.rs) -/

/-- From cargo-aprz-lib/src/commands/config.rs: struct AllowListEntry. -/
structure AllowListEntry where
  name : String
  version : VersionReq
deriving DecidableEq, Repr

/-- AllowListEntry::matches: the crate name is compared literally and the
version per the semver requirement. -/
def AllowListEntry.matches (e : AllowListEntry) (name : String) (version : Version) : Bool :=
  e.name == name && e.version.matches version

namespace Commands

/-- From cargo-aprz-lib/src/commands/config.rs: struct Config. Thresholds
are f64 modelled as Rat; cache TTL durations are seconds. -/
structure Config where
  allow_list : List AllowListEntry
  medium_risk_threshold : Rat := 30
  low_risk_threshold : Rat := 70
  crates_cache_ttl : Nat := 7 * 24 * 3600
  hosting_cache_ttl : Nat := 7 * 24 * 3600
  codebase_cache_ttl : Nat := 7 * 24 * 3600
  coverage_cache_ttl : Nat := 7 * 24 * 3600
  advisories_cache_ttl : Nat := 7 * 24 * 3600

/-- Config::is_allowed: some allow list entry matches. -/
def Config.is_allowed (c : Config) (name : String) (version : Version) : Bool :=
  c.allow_list.any (fun entry => entry.matches name version)

end Commands

/-! ## Metrics (src/metrics) -/

/-- From src/metrics/metric_category.rs: enum MetricCategory. -/
inductive MetricCategory where
  | Stability
  | Usage
  | Community
  | Activity
  | Documentation
  | Ownership
  | Trustworthiness
  | Cost
  | Advisories
deriving DecidableEq, Repr

/-- From src/metrics/metric.rs: enum Metric, the fixed metric catalog. -/
inductive Metric where
  | License
  | Age
  | MinVersion
  | ReleaseCount
  | OverallDownloadCount
  | OneMonthDownloadCount
  | OverallOwnerCount
  | UserOwnerCount
  | TeamOwnerCount
  | DependentCount
  | DirectDependencyCount
  | TransitiveDependencyCount
  | DocCoveragePercentage
  | BrokenDocLinkCount
  | CodeCoveragePercentage
  | FullySafeCode
  | ExampleCount
  | RepoStarCount
  | RepoForkCount
  | RepoSubscriberCount
  | RepoContributorCount
  | CommitActivity
  | OpenIssueCount
  | ClosedIssueCount
  | IssueResponsiveness
  | OpenPullRequestCount
  | ClosedPullRequestCount
  | PullRequestResponsiveness
  | VulnerabilityCount
  | LowVulnerabilityCount
  | MediumVulnerabilityCount
  | HighVulnerabilityCount
  | CriticalVulnerabilityCount
  | WarningCount
  | NoticeWarningCount
  | UnmaintainedWarningCount
  | UnsoundWarningCount
  | YankedWarningCount
  | HistoricalVulnerabilityCount
  | HistoricalLowVulnerabilityCount
  | HistoricalMediumVulnerabilityCount
  | HistoricalHighVulnerabilityCount
  | HistoricalCriticalVulnerabilityCount
  | HistoricalWarningCount
  | HistoricalNoticeWarningCount
  | HistoricalUnmaintainedWarningCount
  | HistoricalUnsoundWarningCount
  | HistoricalYankedWarningCount
deriving DecidableEq, Repr

/-- The metric catalog in declaration order (strum EnumIter). -/
def all_metrics : List Metric :=
  [.License, .Age, .MinVersion, .ReleaseCount,
   .OverallDownloadCount, .OneMonthDownloadCount,
   .OverallOwnerCount, .UserOwnerCount, .TeamOwnerCount,
   .DependentCount, .DirectDependencyCount, .TransitiveDependencyCount,
   .DocCoveragePercentage, .BrokenDocLinkCount, .CodeCoveragePercentage,
   .FullySafeCode, .ExampleCount,
   .RepoStarCount, .RepoForkCount, .RepoSubscriberCount, .RepoContributorCount,
   .CommitActivity,
   .OpenIssueCount, .ClosedIssueCount, .IssueResponsiveness,
   .OpenPullRequestCount, .ClosedPullRequestCount, .PullRequestResponsiveness,
   .VulnerabilityCount, .LowVulnerabilityCount, .MediumVulnerabilityCount,
   .HighVulnerabilityCount, .CriticalVulnerabilityCount,
   .WarningCount, .NoticeWarningCount, .UnmaintainedWarningCount,
   .UnsoundWarningCount, .YankedWarningCount,
   .HistoricalVulnerabilityCount, .HistoricalLowVulnerabilityCount,
   .HistoricalMediumVulnerabilityCount, .HistoricalHighVulnerabilityCount,
   .HistoricalCriticalVulnerabilityCount,
   .HistoricalWarningCount, .HistoricalNoticeWarningCount,
   .HistoricalUnmaintainedWarningCount, .HistoricalUnsoundWarningCount,
   .HistoricalYankedWarningCount]

/-- Metric::category: the static metric to category mapping. -/
def Metric.category : Metric → MetricCategory
  | .Age | .MinVersion | .ReleaseCount => .Stability
  | .OverallDownloadCount | .OneMonthDownloadCount | .DependentCount => .Usage
  | .RepoStarCount | .RepoForkCount | .RepoSubscriberCount | .RepoContributorCount => .Community
  | .CommitActivity | .OpenIssueCount | .ClosedIssueCount | .IssueResponsiveness
  | .OpenPullRequestCount | .ClosedPullRequestCount | .PullRequestResponsiveness => .Activity
  | .DocCoveragePercentage | .BrokenDocLinkCount | .ExampleCount => .Documentation
  | .OverallOwnerCount | .UserOwnerCount | .TeamOwnerCount | .License => .Ownership
  | .CodeCoveragePercentage | .FullySafeCode => .Trustworthiness
  | .TransitiveDependencyCount | .DirectDependencyCount => .Cost
  | _ => .Advisories

/-! ## Fact payloads (src/facts) -/

/-- From src/facts/crates/owner_kind.rs: enum OwnerKind. -/
inductive OwnerKind where
  | user
  | team
deriving DecidableEq, Repr

/-- From src/facts/crates/owner.rs: struct Owner. -/
structure Owner where
  login : String
  kind : OwnerKind
  name : Option String
deriving DecidableEq, Repr

/-- From src/facts/crates/crate_version_data.rs: struct CrateVersionData.
The RustEdition enum is modelled by its year; datetimes are Unix seconds. -/
structure CrateVersionData where
  timestamp : Int := 0
  version : Version
  description : Option String := none
  homepage : Option String := none
  documentation : Option String := none
  license : Option String := none
  rust_version : Option String := none
  edition : Option Nat := none
  features : List (String × List String) := []
  created_at : Int := 0
  updated_at : Int := 0
  yanked : Bool := false
  downloads : Nat := 0
deriving DecidableEq, Repr

/-- From src/facts/crates/crate_overall_data.rs: struct CrateOverallData.
Monthly download months (NaiveDate) are day numbers. -/
structure CrateOverallData where
  timestamp : Int := 0
  name : String := ""
  created_at : Int := 0
  updated_at : Int := 0
  repository : Option String := none
  categories : List String := []
  keywords : List String := []
  owners : List Owner := []
  monthly_downloads : List (Int × Nat) := []
  downloads : Nat := 0
  dependents : Nat := 0
deriving DecidableEq, Repr

/-- Modelled from the spec: struct AgeStats (the source file
src/facts/hosting/issue_stats.rs is not part of the provided sources); the
issue or pull request age percentiles avg, p50, p75, p90, p95 in days. -/
structure AgeStats where
  avg : Nat := 0
  p50 : Nat := 0
  p75 : Nat := 0
  p90 : Nat := 0
  p95 : Nat := 0
deriving DecidableEq, Repr

/-- Modelled from the spec: struct IssueStats (same missing source file);
open and closed counts plus closed age percentiles. -/
structure IssueStats where
  open_count : Nat := 0
  closed_count : Nat := 0
  closed_age : AgeStats := {}
deriving DecidableEq, Repr

/-- From src/facts/hosting/hosting_data.rs: struct HostingData. -/
structure HostingData where
  timestamp : Int := 0
  stars : Nat := 0
  forks : Nat := 0
  subscribers : Nat := 0
  contributors : Nat := 0
  commits_last_3_months : Nat := 0
  issues : IssueStats := {}
  pulls : IssueStats := {}
deriving DecidableEq, Repr

/-- Modelled from the spec: CoverageData (the coverage provider payload
source file is not part of the provided sources); the line coverage
percentage, an f64 modelled as Rat. -/
structure CoverageData where
  code_coverage_percentage : Rat := 0
deriving DecidableEq, Repr

/-- Modelled from the spec: CodebaseData (the codebase provider payload
source file is not part of the provided sources); the unsafe-code count
(field nonsafe_count here), the transitive dependency count and the
example count, per spec section 3 and the field reads in
src/ranking/metric_calculator.rs. -/
structure CodebaseData where
  nonsafe_count : Nat := 0
  transitive_dependencies : Nat := 0
  example_count : Nat := 0
deriving DecidableEq, Repr

/-- From src/facts/docs/docs_data.rs: struct DocsMetrics. -/
structure DocsMetrics where
  doc_coverage_percentage : Nat := 0
  number_of_public_api_elements : Nat := 0
  number_of_undocumented_elements : Nat := 0
  number_of_examples_in_docs : Nat := 0
  has_crate_level_docs : Bool := false
  broken_doc_links : Nat := 0
deriving DecidableEq, Repr

/-- From src/facts/docs/docs_data.rs: enum MetricState. -/
inductive MetricState where
  | found (metrics : DocsMetrics)
  | unknown_format_version (n : Nat)
deriving DecidableEq, Repr

/-- From src/facts/docs/docs_data.rs: struct DocsData. -/
structure DocsData where
  timestamp : Int := 0
  state : MetricState
deriving DecidableEq, Repr

/-- From src/facts/crate_facts.rs: struct CrateFacts. -/
structure CrateFacts where
  collected_at : Int := 0
  crate_version_data : ProviderResult CrateVersionData
  crate_overall_data : ProviderResult CrateOverallData
  hosting_data : ProviderResult HostingData
  advisory_data : ProviderResult AdvisoryData
  codebase_data : ProviderResult CodebaseData
  coverage_data : ProviderResult CoverageData
  docs_data : ProviderResult DocsData
deriving DecidableEq, Repr

/-! ## SPDX expressions (third party spdx crate) -/

/-- From the spdx crate (third party): one license requirement of a parsed
expression; license_id is the identifier name when req.req.license.id()
recognizes the license, and none otherwise. -/
structure SpdxReq where
  license_id : Option String
deriving DecidableEq, Repr

/-- From the spdx crate (third party): a successfully parsed SPDX
expression, abstracted to what LicensePolicy::evaluate_spdx_expression
consumes: the requirement list expr.requirements() and the Display
rendering of the expression. -/
structure SpdxExpr where
  requirements : List SpdxReq
  display : String
deriving DecidableEq, Repr

/-- The spdx::Expression::parse front end, abstracted as an oracle; every
theorem about license checking quantifies over it. -/
def SpdxParse : Type := String → Option SpdxExpr

/-- Rust str::contains for string needles: byte level substring search,
equivalent on valid UTF-8 to character level infix. -/
def contains_substr (hay needle : String) : Bool :=
  decide (needle.toList <:+: hay.toList)

/-! ## Policies (src/config/policies) -/

/-- From src/config/policies/license_policy.rs: struct LicensePolicy; the
HashSet of allowed license names is a list, only membership queries are
used. -/
structure LicensePolicy where
  dependency_types : DependencyTypes := DependencyTypes.default
  licenses : List String
  points : Rat

/-- Modelled from the spec: AgePolicy (its source file is not among the
provided sources; the fields follow the spec policy table and the reads in
src/ranking/metric_calculator.rs). -/
structure AgePolicy where
  dependency_types : DependencyTypes := DependencyTypes.default
  min_days : Nat
  points : Rat

/-- Modelled from the spec: VersionPolicy (same situation as AgePolicy). -/
structure VersionPolicy where
  dependency_types : DependencyTypes := DependencyTypes.default
  min_major_version : Nat
  points : Rat

/-- Modelled from the spec: BooleanPolicy (same situation as AgePolicy). -/
structure BooleanPolicy where
  dependency_types : DependencyTypes := DependencyTypes.default
  expected : Bool := true
  points : Rat

/-- From src/config/policies/min_count_policy.rs: struct MinCountPolicy. -/
structure MinCountPolicy where
  dependency_types : DependencyTypes := DependencyTypes.default
  min_count : Nat
  points : Rat

/-- From src/config/policies/max_count_policy.rs: struct MaxCountPolicy. -/
structure MaxCountPolicy where
  dependency_types : DependencyTypes := DependencyTypes.default
  max_count : Nat
  points : Rat

/-- From src/config/policies/aged_count_policy.rs: struct AgedCountPolicy. -/
structure AgedCountPolicy where
  dependency_types : DependencyTypes := DependencyTypes.default
  min_count : Nat
  max_days : Nat
  points : Rat

/-- From src/config/policies/percentage_policy.rs: struct PercentagePolicy. -/
structure PercentagePolicy where
  dependency_types : DependencyTypes := DependencyTypes.default
  min_percentage : Nat
  points : Rat

/-- From src/config/policies/responsiveness_policy.rs: struct
ResponsivenessPolicy. -/
structure ResponsivenessPolicy where
  dependency_types : DependencyTypes := DependencyTypes.default
  max_average_days : Nat
  max_p50_days : Nat
  max_p75_days : Nat
  max_p90_days : Nat
  max_p95_days : Nat
  points : Rat

/-- One requirement of the loop body of
LicensePolicy::evaluate_spdx_expression: a requirement with no recognized
license id is disallowed; otherwise any allowed name that is a case
insensitive substring of the id, or of which the id is a substring, makes
it allowed. -/
def req_is_allowed (allowed_licenses : List String) (req : SpdxReq) : Bool :=
  match req.license_id with
  | none => false
  | some id =>
      let license_id := id.toLower
      allowed_licenses.any (fun allowed =>
        let allowed_lower := allowed.toLower
        contains_substr license_id allowed_lower || contains_substr allowed_lower license_id)

/-- LicensePolicy::evaluate_spdx_expression: an empty requirement list is
rejected; with an AND operator in the rendered expression all requirements
must be allowed, otherwise at least one must be. -/
def evaluate_spdx_expression (expr : SpdxExpr) (allowed_licenses : List String) : Bool :=
  let all_requirements := expr.requirements
  if all_requirements.isEmpty then false
  else
    let has_allowed := all_requirements.any (req_is_allowed allowed_licenses)
    let has_disallowed := all_requirements.any (fun r => !(req_is_allowed allowed_licenses r))
    let has_and := contains_substr expr.display " AND "
    if has_and then !has_disallowed && has_allowed else has_allowed

/-- LicensePolicy::check_license on the abstracted parse oracle: on parse
failure, fall back to case insensitive substring matching of any allowed
name; otherwise evaluate the parsed expression. -/
def LicensePolicy.check_license (parse : SpdxParse) (p : LicensePolicy)
    (spdx_license_expr : String) : Bool :=
  match parse spdx_license_expr with
  | none =>
      let license_lower := spdx_license_expr.toLower
      p.licenses.any (fun allowed => contains_substr license_lower allowed.toLower)
  | some expression => evaluate_spdx_expression expression p.licenses

/-! ## Core Config (src/config/config.rs) -/

/-- Modelled from the spec: the core Config struct (its source file
src/config/config.rs is not among the provided sources; the policy vector
fields and their policy types follow spec section 4.5 and every read in
src/ranking/metric_calculator.rs, and metric_scaling follows the spec of
the scale factor map, HashMap of Metric to f64, defaulting to 1.0). -/
structure Config where
  license : List LicensePolicy := []
  age : List AgePolicy := []
  min_version : List VersionPolicy := []
  release_count : List AgedCountPolicy := []
  overall_download_count : List MinCountPolicy := []
  one_month_download_count : List MinCountPolicy := []
  overall_owner_count : List MinCountPolicy := []
  team_owner_count : List MinCountPolicy := []
  user_owner_count : List MinCountPolicy := []
  dependent_count : List MinCountPolicy := []
  direct_dependency_count : List MaxCountPolicy := []
  transitive_dependency_count : List MaxCountPolicy := []
  doc_coverage_percentage : List PercentagePolicy := []
  broken_doc_link_count : List MaxCountPolicy := []
  code_coverage_percentage : List PercentagePolicy := []
  fully_safe_code : List BooleanPolicy := []
  example_count : List MinCountPolicy := []
  repo_contributor_count : List MinCountPolicy := []
  repo_star_count : List MinCountPolicy := []
  repo_fork_count : List MinCountPolicy := []
  repo_subscriber_count : List MinCountPolicy := []
  commit_activity : List AgedCountPolicy := []
  open_issue_count : List MaxCountPolicy := []
  closed_issue_count : List MinCountPolicy := []
  issue_responsiveness : List ResponsivenessPolicy := []
  open_pull_request_count : List MaxCountPolicy := []
  closed_pull_request_count : List MinCountPolicy := []
  pull_request_responsiveness : List ResponsivenessPolicy := []
  vulnerability_count : List MaxCountPolicy := []
  low_vulnerability_count : List MaxCountPolicy := []
  medium_vulnerability_count : List MaxCountPolicy := []
  high_vulnerability_count : List MaxCountPolicy := []
  critical_vulnerability_count : List MaxCountPolicy := []
  warning_count : List MaxCountPolicy := []
  notice_warning_count : List MaxCountPolicy := []
  unmaintained_warning_count : List MaxCountPolicy := []
  unsound_warning_count : List MaxCountPolicy := []
  yanked_warning_count : List MaxCountPolicy := []
  historical_vulnerability_count : List MaxCountPolicy := []
  historical_low_vulnerability_count : List MaxCountPolicy := []
  historical_medium_vulnerability_count : List MaxCountPolicy := []
  historical_high_vulnerability_count : List MaxCountPolicy := []
  historical_critical_vulnerability_count : List MaxCountPolicy := []
  historical_warning_count : List MaxCountPolicy := []
  historical_notice_warning_count : List MaxCountPolicy := []
  historical_unmaintained_warning_count : List MaxCountPolicy := []
  historical_unsound_warning_count : List MaxCountPolicy := []
  historical_yanked_warning_count : List MaxCountPolicy := []
  metric_scaling : Metric → Option Rat := fun _ => none

/-! ## Policy outcomes and the metric calculator (src/ranking) -/

/-- From src/ranking/policy_outcome.rs: enum PolicyOutcome; points are f64
modelled as Rat. -/
inductive PolicyOutcome where
  | Match (points : Rat) (info : String)
  | NoMatch (reason : String)
deriving DecidableEq, Repr

/-- The HashMap of Metric to PolicyOutcome built by the calculator,
modelled as a total function into Option. -/
def PolicyOutcomes : Type := Metric → Option PolicyOutcome

/-- HashMap::insert on the outcome map. -/
def insert_outcome (results : PolicyOutcomes) (metric : Metric) (oc : PolicyOutcome) :
    PolicyOutcomes :=
  fun m => if m = metric then some oc else results m

/-- MetricCalculator::scale_points: multiply by the configured scale
factor, defaulting to 1.0. -/
def scale_points (scaling : Metric → Option Rat) (metric : Metric) (points : Rat) : Rat :=
  points * (scaling metric).getD 1

/-- MetricCalculator::apply_generic_policy, split into outcome computation:
walk the policies whose dependency types contain the current type, in
order; the first one whose predicate holds yields a Match with scaled
points and the success message; otherwise a NoMatch whose reason is the
failure message, or the fixed no-policy reason when no policy applied.
(The source inserts the outcome into the result map itself; insertion is
factored out into the callers here.) -/
def apply_generic_policy {π : Type} (dt : DependencyType) (scaling : Metric → Option Rat)
    (metric : Metric) (policies : List π)
    (dep_types : π → DependencyTypes) (points : π → Rat)
    (pred : π → Bool) (success_msg : π → String) (failure_msg : String) : PolicyOutcome :=
  let applicable := policies.filter (fun p => (dep_types p).contains dt)
  match applicable.find? pred with
  | some p => .Match (scale_points scaling metric (points p)) (success_msg p)
  | none => .NoMatch (if applicable.isEmpty then "no policy defined" else failure_msg)

/-- MetricCalculator::apply_responsiveness_policy, split into outcome
computation: the first applicable policy whose five percentile bounds all
hold yields a Match; otherwise a NoMatch (with no special case for an
empty policy list, matching the source). -/
def apply_responsiveness_policy (dt : DependencyType) (scaling : Metric → Option Rat)
    (metric : Metric) (policies : List ResponsivenessPolicy) (stats : AgeStats) :
    PolicyOutcome :=
  let applicable := policies.filter (fun p => p.dependency_types.contains dt)
  match applicable.find? (fun p =>
      decide (stats.avg ≤ p.max_average_days) && decide (stats.p50 ≤ p.max_p50_days)
        && decide (stats.p75 ≤ p.max_p75_days) && decide (stats.p90 ≤ p.max_p90_days)
        && decide (stats.p95 ≤ p.max_p95_days)) with
  | some p => .Match (scale_points scaling metric p.points) "sufficiently responsive"
  | none => .NoMatch "insufficiently responsive"

/-- The shape of every calculator metric whose provider data is optional:
on Found, compute the outcome and insert it at the metric key; on any
other ProviderResult, return the map unchanged (the metric is omitted). -/
def with_found {α : Type} (field : ProviderResult α) (results : PolicyOutcomes)
    (metric : Metric) (g : α → PolicyOutcome) : PolicyOutcomes :=
  match field with
  | .found d => insert_outcome results metric (g d)
  | _ => results

/-- The docs metric shape: additionally omitted when the docs payload
carries an unknown format version. -/
def with_docs_metrics (field : ProviderResult DocsData) (results : PolicyOutcomes)
    (metric : Metric) (g : DocsMetrics → PolicyOutcome) : PolicyOutcomes :=
  match field with
  | .found dd =>
    match dd.state with
    | .found dm => insert_outcome results metric (g dm)
    | .unknown_format_version _ => results
  | _ => results

/-- The shape of every calculator metric backed by registry data: the
source asserts Found with unreachable!, so any other ProviderResult is a
panic, modelled as Except.error. -/
def require_found {α : Type} (field : ProviderResult α) (results : PolicyOutcomes)
    (metric : Metric) (g : α → PolicyOutcome) : Except String PolicyOutcomes :=
  match field with
  | .found d => .ok (insert_outcome results metric (g d))
  | _ => .error "analyzable crate must have Found data"

/-- A single quote character, for reproducing the message format of
MetricCalculator::license. -/
def squote : String := String.singleton (Char.ofNat 39)

/-- count_releases_in_period specialised to Found version data: 1 when the
current version was created within the last days * 86400 seconds of now,
else 0 (the source compares created_at to now minus a day duration). -/
def count_releases_in_period (now : Int) (cvd : CrateVersionData) (days : Nat) : Nat :=
  if now - (days : Int) * 86400 ≤ cvd.created_at then 1 else 0

/-- MetricCalculator::get_max_count: the greatest max_count among
applicable MaxCountPolicy entries, 0 when none apply. -/
def get_max_count (dt : DependencyType) (policies : List MaxCountPolicy) : Nat :=
  (((policies.filter (fun p => p.dependency_types.contains dt)).map
    (fun p => p.max_count)).max?).getD 0

/-- Shared body of the twenty advisory count metrics: a MaxCountPolicy
sweep over an observed count with the metric specific noun in the
messages. -/
def advisory_metric (dt : DependencyType) (scaling : Metric → Option Rat) (metric : Metric)
    (policies : List MaxCountPolicy) (noun : String) (count : Nat) : PolicyOutcome :=
  let max_count := get_max_count dt policies
  apply_generic_policy dt scaling metric policies
    (fun p => p.dependency_types) (fun p => p.points)
    (fun p => decide (count ≤ p.max_count))
    (fun _ => toString count ++ " " ++ noun)
    (toString count ++ " " ++ noun ++ " (need <= " ++ toString max_count ++ ")")

namespace MetricCalculator

/-- MetricCalculator::license. -/
def license (parse : SpdxParse) (cfg : Config) (facts : CrateFacts) (dt : DependencyType)
    (results : PolicyOutcomes) : Except String PolicyOutcomes :=
  require_found facts.crate_version_data results .License (fun cvd =>
    let license_str := cvd.license.getD "None"
    apply_generic_policy dt cfg.metric_scaling .License cfg.license
      (fun p => p.dependency_types) (fun p => p.points)
      (fun p => match cvd.license with
        | some l => p.check_license parse l
        | none => false)
      (fun _ => squote ++ license_str ++ squote)
      (squote ++ license_str ++ squote ++ "; not a supported license type"))

/-- MetricCalculator::age; now is the wall clock in Unix seconds, age_days
the truncated day count since the crate was created, clamped at zero. -/
def age (now : Int) (cfg : Config) (facts : CrateFacts) (dt : DependencyType)
    (results : PolicyOutcomes) : Except String PolicyOutcomes :=
  require_found facts.crate_overall_data results .Age (fun cod =>
    let age_days : Nat := (max 0 (Int.tdiv (now - cod.created_at) 86400)).toNat
    let min_days := (((cfg.age.filter (fun p => p.dependency_types.contains dt)).map
        (fun p => p.min_days)).min?).getD 0
    apply_generic_policy dt cfg.metric_scaling .Age cfg.age
      (fun p => p.dependency_types) (fun p => p.points)
      (fun p => decide (p.min_days ≤ age_days))
      (fun _ => toString age_days ++ " days")
      (toString age_days ++ " days (need >= " ++ toString min_days ++ ")"))

/-- MetricCalculator::min_version. -/
def min_version (cfg : Config) (facts : CrateFacts) (dt : DependencyType)
    (results : PolicyOutcomes) : Except String PolicyOutcomes :=
  require_found facts.crate_version_data results .MinVersion (fun cvd =>
    let major_version := cvd.version.major
    let min_v := (((cfg.min_version.filter (fun p => p.dependency_types.contains dt)).map
        (fun p => p.min_major_version)).min?).getD 0
    apply_generic_policy dt cfg.metric_scaling .MinVersion cfg.min_version
      (fun p => p.dependency_types) (fun p => p.points)
      (fun p => decide (p.min_major_version ≤ major_version))
      (fun _ => "v" ++ toString major_version)
      ("v" ++ toString major_version ++ " (need >= v" ++ toString min_v ++ ")"))

/-- MetricCalculator::release_count. The source asserts Found version data
inside the policy predicate (count_releases_in_period), so the panic only
happens when at least one policy applies; with no applicable policy the
metric records the no-policy NoMatch without touching the version data. -/
def release_count (now : Int) (cfg : Config) (facts : CrateFacts) (dt : DependencyType)
    (results : PolicyOutcomes) : Except String PolicyOutcomes :=
  if (cfg.release_count.filter (fun p => p.dependency_types.contains dt)).isEmpty then
    .ok (insert_outcome results .ReleaseCount (.NoMatch "no policy defined"))
  else
    require_found facts.crate_version_data results .ReleaseCount (fun cvd =>
      apply_generic_policy dt cfg.metric_scaling .ReleaseCount cfg.release_count
        (fun p => p.dependency_types) (fun p => p.points)
        (fun p => decide (p.min_count ≤ count_releases_in_period now cvd p.max_days))
        (fun p => toString (count_releases_in_period now cvd p.max_days)
          ++ " releases in " ++ toString p.max_days ++ " days")
        "insufficient recent releases")

/-- MetricCalculator::overall_download_count. -/
def overall_download_count (cfg : Config) (facts : CrateFacts) (dt : DependencyType)
    (results : PolicyOutcomes) : Except String PolicyOutcomes :=
  require_found facts.crate_overall_data results .OverallDownloadCount (fun cod =>
    let downloads := cod.downloads
    let min_downloads :=
      (((cfg.overall_download_count.filter (fun p => p.dependency_types.contains dt)).map
        (fun p => p.min_count)).min?).getD 0
    apply_generic_policy dt cfg.metric_scaling .OverallDownloadCount cfg.overall_download_count
      (fun p => p.dependency_types) (fun p => p.points)
      (fun p => decide (p.min_count ≤ downloads))
      (fun _ => toString downloads ++ " total downloads")
      (toString downloads ++ " total downloads (need >= " ++ toString min_downloads ++ ")"))

/-- MetricCalculator::one_month_download_count: the most recent month is
the last entry of the monthly download series. -/
def one_month_download_count (cfg : Config) (facts : CrateFacts) (dt : DependencyType)
    (results : PolicyOutcomes) : Except String PolicyOutcomes :=
  require_found facts.crate_overall_data results .OneMonthDownloadCount (fun cod =>
    let recent_downloads := (cod.monthly_downloads.getLast?.map (fun e => e.2)).getD 0
    let min_downloads :=
      (((cfg.one_month_download_count.filter (fun p => p.dependency_types.contains dt)).map
        (fun p => p.min_count)).min?).getD 0
    apply_generic_policy dt cfg.metric_scaling .OneMonthDownloadCount cfg.one_month_download_count
      (fun p => p.dependency_types) (fun p => p.points)
      (fun p => decide (p.min_count ≤ recent_downloads))
      (fun _ => toString recent_downloads ++ " downloads in the last month")
      (toString recent_downloads ++ " downloads in the last month (need >= "
        ++ toString min_downloads ++ ")"))

/-- MetricCalculator::overall_owner_count. -/
def overall_owner_count (cfg : Config) (facts : CrateFacts) (dt : DependencyType)
    (results : PolicyOutcomes) : Except String PolicyOutcomes :=
  require_found facts.crate_overall_data results .OverallOwnerCount (fun cod =>
    let owner_count := cod.owners.length
    let min_owner_count :=
      (((cfg.overall_owner_count.filter (fun p => p.dependency_types.contains dt)).map
        (fun p => p.min_count)).min?).getD 0
    apply_generic_policy dt cfg.metric_scaling .OverallOwnerCount cfg.overall_owner_count
      (fun p => p.dependency_types) (fun p => p.points)
      (fun p => decide (p.min_count ≤ owner_count))
      (fun _ => toString owner_count ++ " total owners")
      (toString owner_count ++ " total owners (need >= " ++ toString min_owner_count ++ ")"))

/-- MetricCalculator::get_owner_count specialised to Found overall data. -/
def get_owner_count (cod : CrateOverallData) (kind : OwnerKind) : Nat :=
  (cod.owners.filter (fun o => o.kind == kind)).length

/-- MetricCalculator::team_owner_count. -/
def team_owner_count (cfg : Config) (facts : CrateFacts) (dt : DependencyType)
    (results : PolicyOutcomes) : Except String PolicyOutcomes :=
  require_found facts.crate_overall_data results .TeamOwnerCount (fun cod =>
    let owner_team_count := get_owner_count cod .team
    let min_count :=
      (((cfg.team_owner_count.filter (fun p => p.dependency_types.contains dt)).map
        (fun p => p.min_count)).min?).getD 0
    apply_generic_policy dt cfg.metric_scaling .TeamOwnerCount cfg.team_owner_count
      (fun p => p.dependency_types) (fun p => p.points)
      (fun p => decide (p.min_count ≤ owner_team_count))
      (fun _ => toString owner_team_count ++ " team owners")
      (toString owner_team_count ++ " team owners (need >= " ++ toString min_count ++ ")"))

/-- MetricCalculator::user_owner_count. -/
def user_owner_count (cfg : Config) (facts : CrateFacts) (dt : DependencyType)
    (results : PolicyOutcomes) : Except String PolicyOutcomes :=
  require_found facts.crate_overall_data results .UserOwnerCount (fun cod =>
    let owner_user_count := get_owner_count cod .user
    let min_count :=
      (((cfg.user_owner_count.filter (fun p => p.dependency_types.contains dt)).map
        (fun p => p.min_count)).min?).getD 0
    apply_generic_policy dt cfg.metric_scaling .UserOwnerCount cfg.user_owner_count
      (fun p => p.dependency_types) (fun p => p.points)
      (fun p => decide (p.min_count ≤ owner_user_count))
      (fun _ => toString owner_user_count ++ " user owners")
      (toString owner_user_count ++ " user owners (need >= " ++ toString min_count ++ ")"))

/-- MetricCalculator::direct_dependency_count is a disabled placeholder in
the source; it records nothing. -/
def direct_dependency_count (results : PolicyOutcomes) : PolicyOutcomes := results

/-- MetricCalculator::dependent_count. -/
def dependent_count (cfg : Config) (facts : CrateFacts) (dt : DependencyType)
    (results : PolicyOutcomes) : Except String PolicyOutcomes :=
  require_found facts.crate_overall_data results .DependentCount (fun cod =>
    let deps := cod.dependents
    let min_deps :=
      (((cfg.dependent_count.filter (fun p => p.dependency_types.contains dt)).map
        (fun p => p.min_count)).min?).getD 0
    apply_generic_policy dt cfg.metric_scaling .DependentCount cfg.dependent_count
      (fun p => p.dependency_types) (fun p => p.points)
      (fun p => decide (p.min_count ≤ deps))
      (fun _ => toString deps ++ " dependents")
      (toString deps ++ " dependents (need >= " ++ toString min_deps ++ ")"))

/-- MetricCalculator::doc_coverage_percentage. -/
def doc_coverage_percentage (cfg : Config) (facts : CrateFacts) (dt : DependencyType)
    (results : PolicyOutcomes) : PolicyOutcomes :=
  with_docs_metrics facts.docs_data results .DocCoveragePercentage (fun dm =>
    let doc_coverage := dm.doc_coverage_percentage
    let min_coverage :=
      (((cfg.doc_coverage_percentage.filter (fun p => p.dependency_types.contains dt)).map
        (fun p => p.min_percentage)).min?).getD 0
    apply_generic_policy dt cfg.metric_scaling .DocCoveragePercentage cfg.doc_coverage_percentage
      (fun p => p.dependency_types) (fun p => p.points)
      (fun p => decide (p.min_percentage ≤ doc_coverage))
      (fun _ => toString doc_coverage ++ "% documentation coverage")
      (toString doc_coverage ++ "% documentation coverage (need >= "
        ++ toString min_coverage ++ "%)"))

/-- MetricCalculator::broken_doc_link_count. -/
def broken_doc_link_count (cfg : Config) (facts : CrateFacts) (dt : DependencyType)
    (results : PolicyOutcomes) : PolicyOutcomes :=
  with_docs_metrics facts.docs_data results .BrokenDocLinkCount (fun dm =>
    let broken_links := dm.broken_doc_links
    let max_broken_links :=
      (((cfg.broken_doc_link_count.filter (fun p => p.dependency_types.contains dt)).map
        (fun p => p.max_count)).max?).getD 0
    apply_generic_policy dt cfg.metric_scaling .BrokenDocLinkCount cfg.broken_doc_link_count
      (fun p => p.dependency_types) (fun p => p.points)
      (fun p => decide (broken_links ≤ p.max_count))
      (fun _ => toString broken_links ++ " broken documentation links")
      (toString broken_links ++ " broken documentation links (need < "
        ++ toString max_broken_links ++ ")"))

/-- MetricCalculator::code_coverage_percentage; the observed coverage is
f64, modelled as Rat (the one decimal rendering of the source messages is
not reproduced). -/
def code_coverage_percentage (cfg : Config) (facts : CrateFacts) (dt : DependencyType)
    (results : PolicyOutcomes) : PolicyOutcomes :=
  with_found facts.coverage_data results .CodeCoveragePercentage (fun cov =>
    let code_coverage := cov.code_coverage_percentage
    let min_coverage : Rat :=
      (((cfg.code_coverage_percentage.filter (fun p => p.dependency_types.contains dt)).map
        (fun p => (p.min_percentage : Rat))).min?).getD 0
    apply_generic_policy dt cfg.metric_scaling .CodeCoveragePercentage cfg.code_coverage_percentage
      (fun p => p.dependency_types) (fun p => p.points)
      (fun p => decide ((p.min_percentage : Rat) ≤ code_coverage))
      (fun _ => toString code_coverage ++ "% codebase coverage")
      (toString code_coverage ++ "% codebase coverage (need >= "
        ++ toString min_coverage ++ "%)"))

/-- MetricCalculator::fully_safe_code: matches any applicable policy when
the codebase has a zero unsafe-code count. -/
def fully_safe_code (cfg : Config) (facts : CrateFacts) (dt : DependencyType)
    (results : PolicyOutcomes) : PolicyOutcomes :=
  with_found facts.codebase_data results .FullySafeCode (fun cb =>
    apply_generic_policy dt cfg.metric_scaling .FullySafeCode cfg.fully_safe_code
      (fun p => p.dependency_types) (fun p => p.points)
      (fun _ => !(decide (0 < cb.nonsafe_count)))
      (fun _ => "crate contains no unsafe codebase")
      "crate contains unsafe codebase")

/-- MetricCalculator::transitive_dependency_count. -/
def transitive_dependency_count (cfg : Config) (facts : CrateFacts) (dt : DependencyType)
    (results : PolicyOutcomes) : PolicyOutcomes :=
  with_found facts.codebase_data results .TransitiveDependencyCount (fun cb =>
    let transitive_deps := cb.transitive_dependencies
    let max_deps :=
      (((cfg.transitive_dependency_count.filter (fun p => p.dependency_types.contains dt)).map
        (fun p => p.max_count)).max?).getD 0
    apply_generic_policy dt cfg.metric_scaling .TransitiveDependencyCount
      cfg.transitive_dependency_count
      (fun p => p.dependency_types) (fun p => p.points)
      (fun p => decide (transitive_deps ≤ p.max_count))
      (fun _ => toString transitive_deps ++ " transitive dependencies")
      (toString transitive_deps ++ " transitive dependencies (need < "
        ++ toString max_deps ++ ")"))

/-- MetricCalculator::example_count. -/
def example_count (cfg : Config) (facts : CrateFacts) (dt : DependencyType)
    (results : PolicyOutcomes) : PolicyOutcomes :=
  with_found facts.codebase_data results .ExampleCount (fun cb =>
    let ex_count := cb.example_count
    let min_examples :=
      (((cfg.example_count.filter (fun p => p.dependency_types.contains dt)).map
        (fun p => p.min_count)).min?).getD 0
    apply_generic_policy dt cfg.metric_scaling .ExampleCount cfg.example_count
      (fun p => p.dependency_types) (fun p => p.points)
      (fun p => decide (p.min_count ≤ ex_count))
      (fun _ => toString ex_count ++ " examples")
      (toString ex_count ++ " examples (need >= " ++ toString min_examples ++ ")"))

/-- MetricCalculator::repo_contributor_count. -/
def repo_contributor_count (cfg : Config) (facts : CrateFacts) (dt : DependencyType)
    (results : PolicyOutcomes) : PolicyOutcomes :=
  with_found facts.hosting_data results .RepoContributorCount (fun gh =>
    let value := gh.contributors
    let min_contributors :=
      (((cfg.repo_contributor_count.filter (fun p => p.dependency_types.contains dt)).map
        (fun p => p.min_count)).min?).getD 0
    apply_generic_policy dt cfg.metric_scaling .RepoContributorCount cfg.repo_contributor_count
      (fun p => p.dependency_types) (fun p => p.points)
      (fun p => decide (p.min_count ≤ value))
      (fun _ => toString value ++ " contributors")
      (toString value ++ " contributors (need >= " ++ toString min_contributors ++ ")"))

/-- MetricCalculator::repo_star_count. -/
def repo_star_count (cfg : Config) (facts : CrateFacts) (dt : DependencyType)
    (results : PolicyOutcomes) : PolicyOutcomes :=
  with_found facts.hosting_data results .RepoStarCount (fun gh =>
    let value := gh.stars
    let min_stars :=
      (((cfg.repo_star_count.filter (fun p => p.dependency_types.contains dt)).map
        (fun p => p.min_count)).min?).getD 0
    apply_generic_policy dt cfg.metric_scaling .RepoStarCount cfg.repo_star_count
      (fun p => p.dependency_types) (fun p => p.points)
      (fun p => decide (p.min_count ≤ value))
      (fun _ => toString value ++ " stars")
      (toString value ++ " stars (need >= " ++ toString min_stars ++ ")"))

/-- MetricCalculator::repo_fork_count. -/
def repo_fork_count (cfg : Config) (facts : CrateFacts) (dt : DependencyType)
    (results : PolicyOutcomes) : PolicyOutcomes :=
  with_found facts.hosting_data results .RepoForkCount (fun gh =>
    let value := gh.forks
    let min_forks :=
      (((cfg.repo_fork_count.filter (fun p => p.dependency_types.contains dt)).map
        (fun p => p.min_count)).min?).getD 0
    apply_generic_policy dt cfg.metric_scaling .RepoForkCount cfg.repo_fork_count
      (fun p => p.dependency_types) (fun p => p.points)
      (fun p => decide (p.min_count ≤ value))
      (fun _ => toString value ++ " forks")
      (toString value ++ " forks (need >= " ++ toString min_forks ++ ")"))

/-- MetricCalculator::repo_subscriber_count. -/
def repo_subscriber_count (cfg : Config) (facts : CrateFacts) (dt : DependencyType)
    (results : PolicyOutcomes) : PolicyOutcomes :=
  with_found facts.hosting_data results .RepoSubscriberCount (fun gh =>
    let value := gh.subscribers
    let min_subscribers :=
      (((cfg.repo_subscriber_count.filter (fun p => p.dependency_types.contains dt)).map
        (fun p => p.min_count)).min?).getD 0
    apply_generic_policy dt cfg.metric_scaling .RepoSubscriberCount cfg.repo_subscriber_count
      (fun p => p.dependency_types) (fun p => p.points)
      (fun p => decide (p.min_count ≤ value))
      (fun _ => toString value ++ " subscribers")
      (toString value ++ " subscribers (need >= " ++ toString min_subscribers ++ ")"))

/-- The hard coded commit activity window of
MetricCalculator::commit_activity, in days. -/
def SUPPORTED_DAYS : Nat := 90

/-- MetricCalculator::commit_activity: only policies whose max_days equals
the supported 90 day window can match; such a policy matches when the
observed commits of the last three months reach its min_count. The bound
used in the failure message also considers only 90 day policies. -/
def commit_activity (cfg : Config) (facts : CrateFacts) (dt : DependencyType)
    (results : PolicyOutcomes) : PolicyOutcomes :=
  with_found facts.hosting_data results .CommitActivity (fun gh =>
    let commits := gh.commits_last_3_months
    let min_commits :=
      (((cfg.commit_activity.filter (fun p =>
          p.dependency_types.contains dt && decide (p.max_days = SUPPORTED_DAYS))).map
        (fun p => p.min_count)).min?).getD 0
    apply_generic_policy dt cfg.metric_scaling .CommitActivity cfg.commit_activity
      (fun p => p.dependency_types) (fun p => p.points)
      (fun p => if p.max_days ≠ SUPPORTED_DAYS then false else decide (p.min_count ≤ commits))
      (fun p => toString commits ++ " commits in last " ++ toString p.max_days ++ " days")
      (toString commits ++ " commits in last " ++ toString SUPPORTED_DAYS
        ++ " days (need >= " ++ toString min_commits ++ ")"))

/-- MetricCalculator::open_issue_count. -/
def open_issue_count (cfg : Config) (facts : CrateFacts) (dt : DependencyType)
    (results : PolicyOutcomes) : PolicyOutcomes :=
  with_found facts.hosting_data results .OpenIssueCount (fun gh =>
    let value := gh.issues.open_count
    let max_open_issues :=
      (((cfg.open_issue_count.filter (fun p => p.dependency_types.contains dt)).map
        (fun p => p.max_count)).max?).getD 0
    apply_generic_policy dt cfg.metric_scaling .OpenIssueCount cfg.open_issue_count
      (fun p => p.dependency_types) (fun p => p.points)
      (fun p => decide (value ≤ p.max_count))
      (fun _ => toString value ++ " open issues")
      (toString value ++ " open issues (need < " ++ toString max_open_issues ++ ")"))

/-- MetricCalculator::closed_issue_count. -/
def closed_issue_count (cfg : Config) (facts : CrateFacts) (dt : DependencyType)
    (results : PolicyOutcomes) : PolicyOutcomes :=
  with_found facts.hosting_data results .ClosedIssueCount (fun gh =>
    let value := gh.issues.closed_count
    let min_closed_issues :=
      (((cfg.closed_issue_count.filter (fun p => p.dependency_types.contains dt)).map
        (fun p => p.min_count)).min?).getD 0
    apply_generic_policy dt cfg.metric_scaling .ClosedIssueCount cfg.closed_issue_count
      (fun p => p.dependency_types) (fun p => p.points)
      (fun p => decide (p.min_count ≤ value))
      (fun _ => toString value ++ " closed issues")
      (toString value ++ " closed issues (need >= " ++ toString min_closed_issues ++ ")"))

/-- MetricCalculator::issue_responsiveness. -/
def issue_responsiveness (cfg : Config) (facts : CrateFacts) (dt : DependencyType)
    (results : PolicyOutcomes) : PolicyOutcomes :=
  with_found facts.hosting_data results .IssueResponsiveness (fun gh =>
    apply_responsiveness_policy dt cfg.metric_scaling .IssueResponsiveness
      cfg.issue_responsiveness gh.issues.closed_age)

/-- MetricCalculator::open_pull_request_count. -/
def open_pull_request_count (cfg : Config) (facts : CrateFacts) (dt : DependencyType)
    (results : PolicyOutcomes) : PolicyOutcomes :=
  with_found facts.hosting_data results .OpenPullRequestCount (fun gh =>
    let value := gh.pulls.open_count
    let max_open_prs :=
      (((cfg.open_pull_request_count.filter (fun p => p.dependency_types.contains dt)).map
        (fun p => p.max_count)).max?).getD 0
    apply_generic_policy dt cfg.metric_scaling .OpenPullRequestCount cfg.open_pull_request_count
      (fun p => p.dependency_types) (fun p => p.points)
      (fun p => decide (value ≤ p.max_count))
      (fun _ => toString value ++ " open pull requests")
      (toString value ++ " open pull requests (need < " ++ toString max_open_prs ++ ")"))

/-- MetricCalculator::closed_pull_request_count. -/
def closed_pull_request_count (cfg : Config) (facts : CrateFacts) (dt : DependencyType)
    (results : PolicyOutcomes) : PolicyOutcomes :=
  with_found facts.hosting_data results .ClosedPullRequestCount (fun gh =>
    let value := gh.pulls.closed_count
    let min_closed_prs :=
      (((cfg.closed_pull_request_count.filter (fun p => p.dependency_types.contains dt)).map
        (fun p => p.min_count)).min?).getD 0
    apply_generic_policy dt cfg.metric_scaling .ClosedPullRequestCount
      cfg.closed_pull_request_count
      (fun p => p.dependency_types) (fun p => p.points)
      (fun p => decide (p.min_count ≤ value))
      (fun _ => toString value ++ " closed pull requests")
      (toString value ++ " closed pull requests (need >= " ++ toString min_closed_prs ++ ")"))

/-- MetricCalculator::pull_request_responsiveness. -/
def pull_request_responsiveness (cfg : Config) (facts : CrateFacts) (dt : DependencyType)
    (results : PolicyOutcomes) : PolicyOutcomes :=
  with_found facts.hosting_data results .PullRequestResponsiveness (fun gh =>
    apply_responsiveness_policy dt cfg.metric_scaling .PullRequestResponsiveness
      cfg.pull_request_responsiveness gh.pulls.closed_age)

/-- MetricCalculator::vulnerability_count. -/
def vulnerability_count (cfg : Config) (facts : CrateFacts) (dt : DependencyType)
    (results : PolicyOutcomes) : PolicyOutcomes :=
  with_found facts.advisory_data results .VulnerabilityCount (fun ad =>
    advisory_metric dt cfg.metric_scaling .VulnerabilityCount cfg.vulnerability_count
      "vulnerabilities" ad.vulnerability_count)

/-- MetricCalculator::low_vulnerability_count. -/
def low_vulnerability_count (cfg : Config) (facts : CrateFacts) (dt : DependencyType)
    (results : PolicyOutcomes) : PolicyOutcomes :=
  with_found facts.advisory_data results .LowVulnerabilityCount (fun ad =>
    advisory_metric dt cfg.metric_scaling .LowVulnerabilityCount cfg.low_vulnerability_count
      "low severity vulnerabilities" ad.low_vulnerability_count)

/-- MetricCalculator::medium_vulnerability_count. -/
def medium_vulnerability_count (cfg : Config) (facts : CrateFacts) (dt : DependencyType)
    (results : PolicyOutcomes) : PolicyOutcomes :=
  with_found facts.advisory_data results .MediumVulnerabilityCount (fun ad =>
    advisory_metric dt cfg.metric_scaling .MediumVulnerabilityCount cfg.medium_vulnerability_count
      "medium severity vulnerabilities" ad.medium_vulnerability_count)

/-- MetricCalculator::high_vulnerability_count. -/
def high_vulnerability_count (cfg : Config) (facts : CrateFacts) (dt : DependencyType)
    (results : PolicyOutcomes) : PolicyOutcomes :=
  with_found facts.advisory_data results .HighVulnerabilityCount (fun ad =>
    advisory_metric dt cfg.metric_scaling .HighVulnerabilityCount cfg.high_vulnerability_count
      "high severity vulnerabilities" ad.high_vulnerability_count)

/-- MetricCalculator::critical_vulnerability_count. -/
def critical_vulnerability_count (cfg : Config) (facts : CrateFacts) (dt : DependencyType)
    (results : PolicyOutcomes) : PolicyOutcomes :=
  with_found facts.advisory_data results .CriticalVulnerabilityCount (fun ad =>
    advisory_metric dt cfg.metric_scaling .CriticalVulnerabilityCount
      cfg.critical_vulnerability_count
      "critical severity vulnerabilities" ad.critical_vulnerability_count)

/-- MetricCalculator::warning_count. -/
def warning_count (cfg : Config) (facts : CrateFacts) (dt : DependencyType)
    (results : PolicyOutcomes) : PolicyOutcomes :=
  with_found facts.advisory_data results .WarningCount (fun ad =>
    advisory_metric dt cfg.metric_scaling .WarningCount cfg.warning_count
      "warnings" ad.warning_count)

/-- MetricCalculator::notice_warning_count. -/
def notice_warning_count (cfg : Config) (facts : CrateFacts) (dt : DependencyType)
    (results : PolicyOutcomes) : PolicyOutcomes :=
  with_found facts.advisory_data results .NoticeWarningCount (fun ad =>
    advisory_metric dt cfg.metric_scaling .NoticeWarningCount cfg.notice_warning_count
      "notice warnings" ad.notice_warning_count)

/-- MetricCalculator::unmaintained_warning_count. -/
def unmaintained_warning_count (cfg : Config) (facts : CrateFacts) (dt : DependencyType)
    (results : PolicyOutcomes) : PolicyOutcomes :=
  with_found facts.advisory_data results .UnmaintainedWarningCount (fun ad =>
    advisory_metric dt cfg.metric_scaling .UnmaintainedWarningCount
      cfg.unmaintained_warning_count
      "unmaintained warnings" ad.unmaintained_warning_count)

/-- MetricCalculator::unsound_warning_count. -/
def unsound_warning_count (cfg : Config) (facts : CrateFacts) (dt : DependencyType)
    (results : PolicyOutcomes) : PolicyOutcomes :=
  with_found facts.advisory_data results .UnsoundWarningCount (fun ad =>
    advisory_metric dt cfg.metric_scaling .UnsoundWarningCount cfg.unsound_warning_count
      "unsound warnings" ad.unsound_warning_count)

/-- MetricCalculator::yanked_warning_count. -/
def yanked_warning_count (cfg : Config) (facts : CrateFacts) (dt : DependencyType)
    (results : PolicyOutcomes) : PolicyOutcomes :=
  with_found facts.advisory_data results .YankedWarningCount (fun ad =>
    advisory_metric dt cfg.metric_scaling .YankedWarningCount cfg.yanked_warning_count
      "yanked warnings" ad.yanked_warning_count)

/-- MetricCalculator::historical_vulnerability_count. -/
def historical_vulnerability_count (cfg : Config) (facts : CrateFacts) (dt : DependencyType)
    (results : PolicyOutcomes) : PolicyOutcomes :=
  with_found facts.advisory_data results .HistoricalVulnerabilityCount (fun ad =>
    advisory_metric dt cfg.metric_scaling .HistoricalVulnerabilityCount
      cfg.historical_vulnerability_count
      "historical vulnerabilities" ad.historical_vulnerability_count)

/-- MetricCalculator::historical_low_vulnerability_count. -/
def historical_low_vulnerability_count (cfg : Config) (facts : CrateFacts)
    (dt : DependencyType) (results : PolicyOutcomes) : PolicyOutcomes :=
  with_found facts.advisory_data results .HistoricalLowVulnerabilityCount (fun ad =>
    advisory_metric dt cfg.metric_scaling .HistoricalLowVulnerabilityCount
      cfg.historical_low_vulnerability_count
      "historical low severity vulnerabilities" ad.historical_low_vulnerability_count)

/-- MetricCalculator::historical_medium_vulnerability_count. -/
def historical_medium_vulnerability_count (cfg : Config) (facts : CrateFacts)
    (dt : DependencyType) (results : PolicyOutcomes) : PolicyOutcomes :=
  with_found facts.advisory_data results .HistoricalMediumVulnerabilityCount (fun ad =>
    advisory_metric dt cfg.metric_scaling .HistoricalMediumVulnerabilityCount
      cfg.historical_medium_vulnerability_count
      "historical medium severity vulnerabilities" ad.historical_medium_vulnerability_count)

/-- MetricCalculator::historical_high_vulnerability_count. -/
def historical_high_vulnerability_count (cfg : Config) (facts : CrateFacts)
    (dt : DependencyType) (results : PolicyOutcomes) : PolicyOutcomes :=
  with_found facts.advisory_data results .HistoricalHighVulnerabilityCount (fun ad =>
    advisory_metric dt cfg.metric_scaling .HistoricalHighVulnerabilityCount
      cfg.historical_high_vulnerability_count
      "historical high severity vulnerabilities" ad.historical_high_vulnerability_count)

/-- MetricCalculator::historical_critical_vulnerability_count. -/
def historical_critical_vulnerability_count (cfg : Config) (facts : CrateFacts)
    (dt : DependencyType) (results : PolicyOutcomes) : PolicyOutcomes :=
  with_found facts.advisory_data results .HistoricalCriticalVulnerabilityCount (fun ad =>
    advisory_metric dt cfg.metric_scaling .HistoricalCriticalVulnerabilityCount
      cfg.historical_critical_vulnerability_count
      "historical critical severity vulnerabilities"
      ad.historical_critical_vulnerability_count)

/-- MetricCalculator::historical_warning_count. -/
def historical_warning_count (cfg : Config) (facts : CrateFacts) (dt : DependencyType)
    (results : PolicyOutcomes) : PolicyOutcomes :=
  with_found facts.advisory_data results .HistoricalWarningCount (fun ad =>
    advisory_metric dt cfg.metric_scaling .HistoricalWarningCount cfg.historical_warning_count
      "historical warnings" ad.historical_warning_count)

/-- MetricCalculator::historical_notice_warning_count. -/
def historical_notice_warning_count (cfg : Config) (facts : CrateFacts) (dt : DependencyType)
    (results : PolicyOutcomes) : PolicyOutcomes :=
  with_found facts.advisory_data results .HistoricalNoticeWarningCount (fun ad =>
    advisory_metric dt cfg.metric_scaling .HistoricalNoticeWarningCount
      cfg.historical_notice_warning_count
      "historical notice warnings" ad.historical_notice_warning_count)

/-- MetricCalculator::historical_unmaintained_warning_count. -/
def historical_unmaintained_warning_count (cfg : Config) (facts : CrateFacts)
    (dt : DependencyType) (results : PolicyOutcomes) : PolicyOutcomes :=
  with_found facts.advisory_data results .HistoricalUnmaintainedWarningCount (fun ad =>
    advisory_metric dt cfg.metric_scaling .HistoricalUnmaintainedWarningCount
      cfg.historical_unmaintained_warning_count
      "historical unmaintained warnings" ad.historical_unmaintained_warning_count)

/-- MetricCalculator::historical_unsound_warning_count. -/
def historical_unsound_warning_count (cfg : Config) (facts : CrateFacts) (dt : DependencyType)
    (results : PolicyOutcomes) : PolicyOutcomes :=
  with_found facts.advisory_data results .HistoricalUnsoundWarningCount (fun ad =>
    advisory_metric dt cfg.metric_scaling .HistoricalUnsoundWarningCount
      cfg.historical_unsound_warning_count
      "historical unsound warnings" ad.historical_unsound_warning_count)

/-- MetricCalculator::historical_yanked_warning_count. -/
def historical_yanked_warning_count (cfg : Config) (facts : CrateFacts) (dt : DependencyType)
    (results : PolicyOutcomes) : PolicyOutcomes :=
  with_found facts.advisory_data results .HistoricalYankedWarningCount (fun ad =>
    advisory_metric dt cfg.metric_scaling .HistoricalYankedWarningCount
      cfg.historical_yanked_warning_count
      "historical yanked warnings" ad.historical_yanked_warning_count)

end MetricCalculator

/-- metric_calculator::calculate: run every metric of the catalog in the
source order over an initially empty outcome map. The registry backed
metrics assert Found registry data (a panic, Except.error, otherwise);
every other metric is skipped silently when its provider data is not
Found. -/
def calculate (parse : SpdxParse) (now : Int) (cfg : Config) (facts : CrateFacts)
    (dt : DependencyType) : Except String PolicyOutcomes := do
  let results : PolicyOutcomes := fun _ => none
  let results ← MetricCalculator.license parse cfg facts dt results
  let results ← MetricCalculator.age now cfg facts dt results
  let results ← MetricCalculator.min_version cfg facts dt results
  let results ← MetricCalculator.release_count now cfg facts dt results
  let results ← MetricCalculator.overall_download_count cfg facts dt results
  let results ← MetricCalculator.one_month_download_count cfg facts dt results
  let results ← MetricCalculator.overall_owner_count cfg facts dt results
  let results ← MetricCalculator.team_owner_count cfg facts dt results
  let results ← MetricCalculator.user_owner_count cfg facts dt results
  let results := MetricCalculator.direct_dependency_count results
  let results ← MetricCalculator.dependent_count cfg facts dt results
  let results := MetricCalculator.doc_coverage_percentage cfg facts dt results
  let results := MetricCalculator.broken_doc_link_count cfg facts dt results
  let results := MetricCalculator.code_coverage_percentage cfg facts dt results
  let results := MetricCalculator.fully_safe_code cfg facts dt results
  let results := MetricCalculator.transitive_dependency_count cfg facts dt results
  let results := MetricCalculator.example_count cfg facts dt results
  let results := MetricCalculator.repo_contributor_count cfg facts dt results
  let results := MetricCalculator.repo_star_count cfg facts dt results
  let results := MetricCalculator.repo_fork_count cfg facts dt results
  let results := MetricCalculator.repo_subscriber_count cfg facts dt results
  let results := MetricCalculator.commit_activity cfg facts dt results
  let results := MetricCalculator.open_issue_count cfg facts dt results
  let results := MetricCalculator.closed_issue_count cfg facts dt results
  let results := MetricCalculator.issue_responsiveness cfg facts dt results
  let results := MetricCalculator.open_pull_request_count cfg facts dt results
  let results := MetricCalculator.closed_pull_request_count cfg facts dt results
  let results := MetricCalculator.pull_request_responsiveness cfg facts dt results
  let results := MetricCalculator.vulnerability_count cfg facts dt results
  let results := MetricCalculator.low_vulnerability_count cfg facts dt results
  let results := MetricCalculator.medium_vulnerability_count cfg facts dt results
  let results := MetricCalculator.high_vulnerability_count cfg facts dt results
  let results := MetricCalculator.critical_vulnerability_count cfg facts dt results
  let results := MetricCalculator.warning_count cfg facts dt results
  let results := MetricCalculator.notice_warning_count cfg facts dt results
  let results := MetricCalculator.unmaintained_warning_count cfg facts dt results
  let results := MetricCalculator.unsound_warning_count cfg facts dt results
  let results := MetricCalculator.yanked_warning_count cfg facts dt results
  let results := MetricCalculator.historical_vulnerability_count cfg facts dt results
  let results := MetricCalculator.historical_low_vulnerability_count cfg facts dt results
  let results := MetricCalculator.historical_medium_vulnerability_count cfg facts dt results
  let results := MetricCalculator.historical_high_vulnerability_count cfg facts dt results
  let results := MetricCalculator.historical_critical_vulnerability_count cfg facts dt results
  let results := MetricCalculator.historical_warning_count cfg facts dt results
  let results := MetricCalculator.historical_notice_warning_count cfg facts dt results
  let results := MetricCalculator.historical_unmaintained_warning_count cfg facts dt results
  let results := MetricCalculator.historical_unsound_warning_count cfg facts dt results
  let results := MetricCalculator.historical_yanked_warning_count cfg facts dt results
  pure results

/-! ## Ranker (src/ranking/ranker.rs) -/

/-- f64::round: round half away from zero, as an integer. -/
def rust_round (x : Rat) : Int :=
  if 0 ≤ x then ⌊x + 1 / 2⌋ else -⌊-x + 1 / 2⌋

/-- The two decimal rounding of the spec: round2 x = round (x * 100) / 100
with round half away from zero (f64::round). -/
def round2 (x : Rat) : Rat := (rust_round (x * 100) : Rat) / 100

/-- The points carried by one policy outcome, zero for a NoMatch (the
match arm of the accumulation loop in Ranker::rank). -/
def outcome_points : PolicyOutcome → Rat
  | .Match points _ => points
  | .NoMatch _ => 0

/-- The entries of the outcome map, in catalog order (the source iterates
a HashMap in unspecified order; every aggregate below is order
independent). -/
def outcome_entries (d : PolicyOutcomes) : List (Metric × PolicyOutcome) :=
  all_metrics.filterMap (fun m => (d m).map (fun oc => (m, oc)))

/-- From src/ranking/ranker.rs: struct RankingOutcome; the category score
HashMap is a total function into Option. -/
structure RankingOutcome where
  overall_score : Rat
  category_scores : MetricCategory → Option Rat
  details : PolicyOutcomes
  dependency_type : DependencyType

/-- Ranker::rank: run the calculator, then accumulate total points,
per category points and per category counts over the outcome map; the
overall score is the rounded average over every outcome (0.0 for an empty
map), and each represented category gets the rounded average over its own
outcomes. -/
def rank (parse : SpdxParse) (now : Int) (cfg : Config) (facts : CrateFacts)
    (dt : DependencyType) : Except String RankingOutcome := do
  let policy_outcomes ← calculate parse now cfg facts dt
  let entries := outcome_entries policy_outcomes
  let total_points : Rat := entries.foldl (fun acc e => acc + outcome_points e.2) 0
  let category_points : MetricCategory → Rat := fun c =>
    entries.foldl (fun acc e => if e.1.category = c then acc + outcome_points e.2 else acc) 0
  let category_counts : MetricCategory → Nat := fun c =>
    (entries.filter (fun e => e.1.category = c)).length
  let score : Rat :=
    if entries.isEmpty then 0
    else
      let avg := total_points / (entries.length : Rat)
      (rust_round (avg * 100) : Rat) / 100
  let category_scores : MetricCategory → Option Rat := fun c =>
    if 0 < category_counts c then
      let avg := category_points c / (category_counts c : Rat)
      some ((rust_round (avg * 100) : Rat) / 100)
    else none
  pure {
    overall_score := score
    category_scores := category_scores
    details := policy_outcomes
    dependency_type := dt }

/-- Spec side: the number of outcomes present in the map. -/
def total_outcome_count (d : PolicyOutcomes) : Nat :=
  (all_metrics.filter (fun m => (d m).isSome)).length

/-- Spec side: the sum of points over the Match outcomes of the map. -/
def matched_points_sum (d : PolicyOutcomes) : Rat :=
  ((all_metrics.filterMap d).filterMap (fun oc =>
    match oc with
    | .Match points _ => some points
    | .NoMatch _ => none)).sum

/-! ## Required provider fields per metric (for the omission claim) -/

/-- A field selector over the ProviderResult fields of CrateFacts. -/
inductive FactsField where
  | version_data
  | overall_data
  | hosting_data
  | advisory_data
  | codebase_data
  | coverage_data
  | docs_data
deriving DecidableEq, Repr

/-- Whether the selected ProviderResult field of a CrateFacts is Found. -/
def facts_field_found (facts : CrateFacts) : FactsField → Bool
  | .version_data => facts.crate_version_data.is_found
  | .overall_data => facts.crate_overall_data.is_found
  | .hosting_data => facts.hosting_data.is_found
  | .advisory_data => facts.advisory_data.is_found
  | .codebase_data => facts.codebase_data.is_found
  | .coverage_data => facts.coverage_data.is_found
  | .docs_data => facts.docs_data.is_found

/-- The ProviderResult fields each metric calculator reads, from the field
accesses in src/ranking/metric_calculator.rs. DirectDependencyCount is a
disabled placeholder and reads nothing. -/
def required_facts : Metric → List FactsField
  | .License | .MinVersion | .ReleaseCount => [.version_data]
  | .Age | .OverallDownloadCount | .OneMonthDownloadCount
  | .OverallOwnerCount | .UserOwnerCount | .TeamOwnerCount
  | .DependentCount => [.overall_data]
  | .DirectDependencyCount => []
  | .TransitiveDependencyCount | .FullySafeCode | .ExampleCount => [.codebase_data]
  | .DocCoveragePercentage | .BrokenDocLinkCount => [.docs_data]
  | .CodeCoveragePercentage => [.coverage_data]
  | .RepoStarCount | .RepoForkCount | .RepoSubscriberCount | .RepoContributorCount
  | .CommitActivity
  | .OpenIssueCount | .ClosedIssueCount | .IssueResponsiveness
  | .OpenPullRequestCount | .ClosedPullRequestCount
  | .PullRequestResponsiveness => [.hosting_data]
  | _ => [.advisory_data]

/-! ## Advisory scan (cargo-aprz-lib/src/facts/advisories/provider.rs) -/

/-- From cargo-aprz-lib/src/facts/crate_spec.rs: struct CrateSpec; the
optional RepoSpec is irrelevant to the advisory scan and carried as an
opaque string. -/
structure CrateSpec where
  name : String
  version : Version
  repo_spec : Option String := none
deriving DecidableEq, Repr

/-- Check whether the advisory version range covers a version (rustsec
advisory.versions.is_vulnerable on the modelled advisory). -/
def advisory_is_vulnerable (a : Advisory) (v : Version) : Bool :=
  a.versions_is_vulnerable (v.major, v.minor, v.patch)

/-- One pending scan entry: a spec with its accumulating result. -/
abbrev ScanEntry : Type := CrateSpec × ProviderResult AdvisoryData

/-- The crate_map of scan_advisories: entries grouped by package name.
The HashMap is modelled as an association list in first insertion order;
per name, entries keep input order (Vec::push appends). -/
abbrev ScanMap : Type := List (String × List ScanEntry)

/-- crate_map.entry(name).or_default().push(entry). -/
def scan_map_push (m : ScanMap) (name : String) (e : ScanEntry) : ScanMap :=
  match m with
  | [] => [(name, [e])]
  | (k, es) :: rest =>
    if k = name then (k, es ++ [e]) :: rest
    else (k, es) :: scan_map_push rest name e

/-- The per entry update of the advisory loop: a matching advisory is
counted into the historical buckets, and additionally into the version
specific buckets when the version range covers the version of the spec. -/
def scan_entry_update (a : Advisory) (e : ScanEntry) : ScanEntry :=
  match e with
  | (crate_spec, .found data) =>
    let data := data.count_advisory_historical a
    let data :=
      if advisory_is_vulnerable a crate_spec.version then
        data.count_advisory_for_version a
      else data
    (crate_spec, .found data)
  | other => other

/-- One iteration of the advisory loop: update every entry of the bucket
whose key equals the package of the advisory. -/
def scan_map_apply (m : ScanMap) (a : Advisory) : ScanMap :=
  m.map (fun bucket =>
    if bucket.1 = a.package then (bucket.1, bucket.2.map (scan_entry_update a)) else bucket)

/-- scan_advisories: seed one Found(default) entry per input spec, keyed
by name; sweep every advisory of the database over the matching buckets;
flatten the bucket values. -/
def scan_advisories (database : List Advisory) (crates : List CrateSpec) :
    List ScanEntry :=
  let crate_map : ScanMap := crates.foldl
    (fun m crate_spec =>
      scan_map_push m crate_spec.name (crate_spec, .found AdvisoryData.default)) []
  let scanned := database.foldl scan_map_apply crate_map
  (scanned.map (fun bucket => bucket.2)).flatten

/-- The specs stored in a ScanMap, bucket order then entry order. -/
def scan_map_specs (m : ScanMap) : List CrateSpec :=
  ((m.map (fun bucket => bucket.2)).flatten).map Prod.fst

/-- Fold a list of advisories over one scan entry. -/
def apply_advisories (l : List Advisory) (e : ScanEntry) : ScanEntry :=
  l.foldl (fun e a => scan_entry_update a e) e

/-- Spec side: the advisories of the database whose package name is the
given crate name. -/
def matching_advisories (database : List Advisory) (name : String) : List Advisory :=
  database.filter (fun a => a.package = name)

/-- Spec side: the advisory data the scan produces for one spec, folding
the matching advisories over the default data. -/
def scan_result_for (database : List Advisory) (spec : CrateSpec) : AdvisoryData :=
  (matching_advisories database spec.name).foldl
    (fun d a =>
      let d := d.count_advisory_historical a
      if advisory_is_vulnerable a spec.version then d.count_advisory_for_version a else d)
    AdvisoryData.default

/-! ## Spec side license predicates (for the license claim) -/

/-- Spec side: some allowed name matches the license id, case
insensitively and as a substring in either direction. -/
def allowed_contains (allowed : List String) (id : String) : Prop :=
  ∃ a ∈ allowed,
    (a.toLower.toList <:+: id.toLower.toList) ∨ (id.toLower.toList <:+: a.toLower.toList)

/-- Spec side: a license requirement is in the allowed set; a requirement
with no recognized license id never is. -/
def req_allowed_spec (allowed : List String) (req : SpdxReq) : Prop :=
  ∃ id, req.license_id = some id ∧ allowed_contains allowed id

/-! ## Concrete sample inputs -/

/-- The parse oracle that always fails, for concrete instances whose
license policies are empty. -/
def no_parse : SpdxParse := fun _ => none

/-- A concrete Found registry version payload. -/
def sample_version_data : CrateVersionData := { version := ⟨1, 2, 3⟩ }

/-- A concrete Found registry overall payload. -/
def sample_overall_data : CrateOverallData := {}

/-- A concrete Found hosting payload. -/
def sample_hosting_data : HostingData := { stars := 5, commits_last_3_months := 5 }

/-- A concrete Found docs payload with a known format version. -/
def sample_docs_data : DocsData := { state := .found {} }

/-- A CrateFacts value with every provider field Found. -/
def all_found_facts : CrateFacts :=
  { crate_version_data := .found sample_version_data
    crate_overall_data := .found sample_overall_data
    hosting_data := .found sample_hosting_data
    advisory_data := .found AdvisoryData.default
    codebase_data := .found {}
    coverage_data := .found {}
    docs_data := .found sample_docs_data }

/-- A CrateFacts value whose registry version data is missing. -/
def missing_version_facts : CrateFacts :=
  { all_found_facts with crate_version_data := .crateNotFound }

/-- A CrateFacts value whose advisory data failed. -/
def missing_advisory_facts : CrateFacts :=
  { all_found_facts with advisory_data := .error "http timeout" }

/-- The configuration with no policies at all. -/
def empty_config : Config := {}

/-- A configuration with a single 90 day commit activity policy. -/
def commit_cfg : Config :=
  { commit_activity := [{ min_count := 1, max_days := 90, points := 10 }] }

/-- The ranking outcome of the empty configuration over fully Found facts
(used to exercise the score formula on a concrete input). -/
def empty_config_outcome : RankingOutcome :=
  match rank no_parse 0 empty_config all_found_facts .standard with
  | .ok o => o
  | .error _ =>
    { overall_score := 0, category_scores := fun _ => none
      details := fun _ => none, dependency_type := .standard }

/-- The outcome map of the empty configuration over facts whose advisory
data failed (used to exercise the omission behavior on a concrete
input). -/
def missing_advisory_outcome : PolicyOutcomes :=
  match calculate no_parse 0 empty_config missing_advisory_facts .standard with
  | .ok o => o
  | .error _ => fun _ => none

/-! # Theorems -/

/-! ## C10: the yanked advisory counters are never incremented -/

/-- Neither counting entry point touches the two yanked counters. -/
theorem advisory_call_step_yanked (d : AdvisoryData) (c : AdvisoryCall) :
    (advisory_call_step d c).yanked_warning_count = d.yanked_warning_count ∧
    (advisory_call_step d c).historical_yanked_warning_count
      = d.historical_yanked_warning_count := by
  cases c with
  | for_version a =>
    simp only [advisory_call_step, AdvisoryData.count_advisory_for_version]
    cases hi : a.informational with
    | some info => cases info <;> simp
    | none => cases hc : a.cvss with
      | some s => cases s <;> simp
      | none => simp
  | historical a =>
    simp only [advisory_call_step, AdvisoryData.count_advisory_historical]
    cases hi : a.informational with
    | some info => cases info <;> simp
    | none => cases hc : a.cvss with
      | some s => cases s <;> simp
      | none => simp

/-- C10: starting from a default AdvisoryData, no sequence of
count_advisory_for_version or count_advisory_historical calls ever
increments yanked_warning_count or historical_yanked_warning_count: both
fields remain 0 for every possible advisory input. -/
theorem run_advisory_calls_yanked_zero (calls : List AdvisoryCall) :
    (run_advisory_calls calls).yanked_warning_count = 0 ∧
    (run_advisory_calls calls).historical_yanked_warning_count = 0 := by
  have h : ∀ (l : List AdvisoryCall) (d : AdvisoryData),
      (l.foldl advisory_call_step d).yanked_warning_count = d.yanked_warning_count ∧
      (l.foldl advisory_call_step d).historical_yanked_warning_count
        = d.historical_yanked_warning_count := by
    intro l
    induction l with
    | nil => intro d; exact ⟨rfl, rfl⟩
    | cons c rest ih =>
      intro d
      have hs := advisory_call_step_yanked d c
      have ht := ih (advisory_call_step d c)
      simp only [List.foldl_cons]
      exact ⟨ht.1.trans hs.1, ht.2.trans hs.2⟩
  have hd := h calls AdvisoryData.default
  exact ⟨hd.1.trans rfl, hd.2.trans rfl⟩

/-! ## C3: allow list matching -/

/-- C3 counterexample: the allow list entry with name written as an
asterisk is compared literally, so it does not match the crate foo; the
claim that such an entry matches every name fails here. -/
theorem is_allowed_star_name_counterexample :
    Commands.Config.is_allowed { allow_list := [⟨"*", VersionReq.star⟩] } "foo" ⟨1, 0, 0⟩
      = false := by decide

/-- C3 amended: with the single entry of name asterisk and version
asterisk, is_allowed holds exactly for the crate literally named asterisk
(any version); with the single entry of name foo and caret one, is_allowed
holds for foo at 1.2.3 and fails for foo at 2.0.0 and for bar at 1.0.0. -/
theorem is_allowed_star_and_caret :
    (∀ (name : String) (v : Version),
      Commands.Config.is_allowed { allow_list := [⟨"*", VersionReq.star⟩] } name v
        = (name == "*"))
    ∧ Commands.Config.is_allowed { allow_list := [⟨"foo", VersionReq.caret_major 1⟩] }
        "foo" ⟨1, 2, 3⟩ = true
    ∧ Commands.Config.is_allowed { allow_list := [⟨"foo", VersionReq.caret_major 1⟩] }
        "foo" ⟨2, 0, 0⟩ = false
    ∧ Commands.Config.is_allowed { allow_list := [⟨"foo", VersionReq.caret_major 1⟩] }
        "bar" ⟨1, 0, 0⟩ = false := by
  refine ⟨?_, by decide, by decide, by decide⟩
  intro name v
  simp only [Commands.Config.is_allowed, AllowListEntry.matches, VersionReq.matches,
    List.any_cons, List.any_nil, Bool.or_false, Bool.and_true]
  by_cases h : name = "*"
  · subst h; rfl
  · have h1 : ("*" == name) = false := beq_eq_false_iff_ne.mpr (Ne.symm h)
    have h2 : (name == "*") = false := beq_eq_false_iff_ne.mpr h
    rw [h1, h2]

/-! ## C5: request tracker counters -/

theorem issued_total_cons (op : TrackerOp) (ops : List TrackerOp) (name : String) :
    issued_total (op :: ops) name = op_issued name op + issued_total ops name := by
  simp [issued_total]

theorem completed_total_cons (op : TrackerOp) (ops : List TrackerOp) (name : String) :
    completed_total (op :: ops) name = op_completed name op + completed_total ops name := by
  simp [completed_total]

theorem issued_total_append (l1 l2 : List TrackerOp) (name : String) :
    issued_total (l1 ++ l2) name = issued_total l1 name + issued_total l2 name := by
  simp [issued_total]

theorem completed_total_append (l1 l2 : List TrackerOp) (name : String) :
    completed_total (l1 ++ l2) name = completed_total l1 name + completed_total l2 name := by
  simp [completed_total]

/-- One tracker call adds its issued contribution exactly, absent u64
wrap. -/
theorem tracker_step_issued (s : TrackerState) (op : TrackerOp) (name : String)
    (h : (s name).issued + op_issued name op < U64MOD) :
    ((tracker_step s op) name).issued = (s name).issued + op_issued name op := by
  cases op with
  | add_request n =>
    by_cases hn : n = name
    · subst hn
      simp only [op_issued, if_pos rfl] at h
      simp only [tracker_step, TrackerState.update, if_pos rfl, op_issued]
      exact Nat.mod_eq_of_lt h
    · simp [tracker_step, TrackerState.update, op_issued, Ne.symm hn, hn]
  | add_many_requests n c =>
    by_cases hc : c % U64MOD = 0
    · simp only [tracker_step, hc, if_pos rfl, op_issued]
      by_cases hn : n = name <;> simp [hn, hc]
    · by_cases hn : n = name
      · subst hn
        simp only [op_issued, if_pos rfl] at h
        simp only [tracker_step, if_neg hc, TrackerState.update, if_pos rfl, op_issued]
        exact Nat.mod_eq_of_lt h
      · simp [tracker_step, if_neg hc, TrackerState.update, op_issued, Ne.symm hn, hn]
  | complete_request n =>
    by_cases hn : n = name
    · subst hn
      simp [tracker_step, TrackerState.update, op_issued]
    · simp [tracker_step, TrackerState.update, op_issued, Ne.symm hn, hn]

/-- One tracker call adds its completed contribution exactly, absent u64
wrap. -/
theorem tracker_step_completed (s : TrackerState) (op : TrackerOp) (name : String)
    (h : (s name).completed + op_completed name op < U64MOD) :
    ((tracker_step s op) name).completed = (s name).completed + op_completed name op := by
  cases op with
  | add_request n =>
    by_cases hn : n = name
    · subst hn; simp [tracker_step, TrackerState.update, op_completed]
    · simp [tracker_step, TrackerState.update, op_completed, Ne.symm hn, hn]
  | add_many_requests n c =>
    by_cases hc : c % U64MOD = 0
    · simp [tracker_step, hc, op_completed]
    · by_cases hn : n = name
      · subst hn
        simp [tracker_step, if_neg hc, TrackerState.update, op_completed]
      · simp [tracker_step, if_neg hc, TrackerState.update, op_completed, Ne.symm hn, hn]
  | complete_request n =>
    by_cases hn : n = name
    · subst hn
      simp only [op_completed, if_pos rfl] at h
      simp only [tracker_step, TrackerState.update, if_pos rfl, op_completed]
      exact Nat.mod_eq_of_lt h
    · simp [tracker_step, TrackerState.update, op_completed, Ne.symm hn, hn]

/-- Running a call sequence from any state adds the issued total exactly,
when the result stays below the u64 modulus. -/
theorem foldl_tracker_issued (ops : List TrackerOp) :
    ∀ (s : TrackerState) (name : String),
      (s name).issued + issued_total ops name < U64MOD →
      ((ops.foldl tracker_step s) name).issued = (s name).issued + issued_total ops name := by
  induction ops with
  | nil => intro s name _; simp [issued_total]
  | cons op rest ih =>
    intro s name h
    rw [issued_total_cons] at h
    have hstep : ((tracker_step s op) name).issued = (s name).issued + op_issued name op :=
      tracker_step_issued s op name (by omega)
    have hrec : ((tracker_step s op) name).issued + issued_total rest name < U64MOD := by
      rw [hstep]; omega
    rw [List.foldl_cons, ih (tracker_step s op) name hrec, hstep, issued_total_cons]
    omega

/-- Running a call sequence from any state adds the completed total
exactly, when the result stays below the u64 modulus. -/
theorem foldl_tracker_completed (ops : List TrackerOp) :
    ∀ (s : TrackerState) (name : String),
      (s name).completed + completed_total ops name < U64MOD →
      ((ops.foldl tracker_step s) name).completed
        = (s name).completed + completed_total ops name := by
  induction ops with
  | nil => intro s name _; simp [completed_total]
  | cons op rest ih =>
    intro s name h
    rw [completed_total_cons] at h
    have hstep : ((tracker_step s op) name).completed
        = (s name).completed + op_completed name op :=
      tracker_step_completed s op name (by omega)
    have hrec : ((tracker_step s op) name).completed + completed_total rest name < U64MOD := by
      rw [hstep]; omega
    rw [List.foldl_cons, ih (tracker_step s op) name hrec, hstep, completed_total_cons]
    omega

theorem issued_total_take_le (ops : List TrackerOp) (n : Nat) (name : String) :
    issued_total (ops.take n) name ≤ issued_total ops name := by
  conv_rhs => rw [← List.take_append_drop n ops]
  rw [issued_total_append]
  omega

theorem completed_total_take_le (ops : List TrackerOp) (n : Nat) (name : String) :
    completed_total (ops.take n) name ≤ completed_total ops name := by
  conv_rhs => rw [← List.take_append_drop n ops]
  rw [completed_total_append]
  omega

theorem issued_total_take_mono (ops : List TrackerOp) (name : String) {n m : Nat}
    (h : n ≤ m) :
    issued_total (ops.take n) name ≤ issued_total (ops.take m) name := by
  have he : ops.take n = (ops.take m).take n := by
    rw [List.take_take, min_eq_left h]
  rw [he]
  exact issued_total_take_le _ _ _

theorem completed_total_take_mono (ops : List TrackerOp) (name : String) {n m : Nat}
    (h : n ≤ m) :
    completed_total (ops.take n) name ≤ completed_total (ops.take m) name := by
  have he : ops.take n = (ops.take m).take n := by
    rw [List.take_take, min_eq_left h]
  rw [he]
  exact completed_total_take_le _ _ _

/-- C5 counterexample: a complete_request with no prior add_request leaves
the completed counter above the issued counter; the claimed invariant that
completed never exceeds issued after every operation of every sequence
fails on this one operation sequence. -/
theorem complete_without_issue_counterexample :
    ((run_tracker_ops [TrackerOp.complete_request "x"]) "x").issued
      < ((run_tracker_ops [TrackerOp.complete_request "x"]) "x").completed := by decide

/-- C5 amended: for every sequence of RequestTracker operations from a
fresh tracker and every name, provided that along every prefix the
completions recorded for the name never exceed the issues recorded for it
(the callers of the tracker complete only requests they added), and that
the total issues for the name stay below 2 ^ 64 (no u64 wrap), the
counters after every prefix satisfy completed at most issued, and both
counters are monotonically non-decreasing along the sequence. -/
theorem request_tracker_invariant (ops : List TrackerOp) (name : String)
    (hbal : ∀ n, n ≤ ops.length →
      completed_total (ops.take n) name ≤ issued_total (ops.take n) name)
    (hbound : issued_total ops name < U64MOD) :
    (∀ n, n ≤ ops.length →
      ((run_tracker_ops (ops.take n)) name).completed
        ≤ ((run_tracker_ops (ops.take n)) name).issued)
    ∧ (∀ n m, n ≤ m → m ≤ ops.length →
      ((run_tracker_ops (ops.take n)) name).issued
          ≤ ((run_tracker_ops (ops.take m)) name).issued
      ∧ ((run_tracker_ops (ops.take n)) name).completed
          ≤ ((run_tracker_ops (ops.take m)) name).completed) := by
  have hfresh_i : (TrackerState.fresh name).issued = 0 := rfl
  have hfresh_c : (TrackerState.fresh name).completed = 0 := rfl
  have hI : ∀ n, n ≤ ops.length →
      ((run_tracker_ops (ops.take n)) name).issued = issued_total (ops.take n) name := by
    intro n hn
    have hb : (TrackerState.fresh name).issued + issued_total (ops.take n) name < U64MOD := by
      have := issued_total_take_le ops n name
      rw [hfresh_i]
      omega
    have := foldl_tracker_issued (ops.take n) TrackerState.fresh name hb
    rw [hfresh_i] at this
    simpa [run_tracker_ops] using this
  have hC : ∀ n, n ≤ ops.length →
      ((run_tracker_ops (ops.take n)) name).completed
        = completed_total (ops.take n) name := by
    intro n hn
    have hb : (TrackerState.fresh name).completed + completed_total (ops.take n) name
        < U64MOD := by
      have h1 := hbal n hn
      have h2 := issued_total_take_le ops n name
      rw [hfresh_c]
      omega
    have := foldl_tracker_completed (ops.take n) TrackerState.fresh name hb
    rw [hfresh_c] at this
    simpa [run_tracker_ops] using this
  constructor
  · intro n hn
    rw [hI n hn, hC n hn]
    exact hbal n hn
  · intro n m hnm hm
    have hn := le_trans hnm hm
    rw [hI n hn, hI m hm, hC n hn, hC m hm]
    exact ⟨issued_total_take_mono ops name hnm, completed_total_take_mono ops name hnm⟩

/-- C5 witness: the invariant instantiated on the balanced two operation
sequence that adds and then completes one request. -/
theorem request_tracker_invariant_witness :
    ((run_tracker_ops (([TrackerOp.add_request "a",
        TrackerOp.complete_request "a"] : List TrackerOp).take 2)) "a").completed
      ≤ ((run_tracker_ops (([TrackerOp.add_request "a",
        TrackerOp.complete_request "a"] : List TrackerOp).take 2)) "a").issued :=
  (request_tracker_invariant [TrackerOp.add_request "a", TrackerOp.complete_request "a"] "a"
    (by decide) (by decide)).1 2 (by decide)

/-! ## C8: progress reporter visibility -/

/-- One ProgressReporter call: the delay never changes; content is never
cleared; and a state that was hidden becomes visible only with content
set, and only when the delay elapsed or through force_visible. -/
theorem progress_step_spec (s : DelayedProgressState) (p : ProgressOp × Nat) :
    ((progress_step s p).delay = s.delay)
    ∧ (s.has_content = true → (progress_step s p).has_content = true)
    ∧ ((progress_step s p).visible = true →
        s.visible = true
        ∨ ((progress_step s p).has_content = true
            ∧ (s.delay ≤ p.2 ∨ p.1 = ProgressOp.force_visible))) := by
  rcases p with ⟨op, t⟩
  cases op <;>
    simp only [progress_step, ensure_visible, restore_determinate, do_force_visible] <;>
    (try split_ifs) <;> simp_all

/-- Running a call sequence never changes the configured delay. -/
theorem run_progress_delay_eq (delay : Nat) (ops : List (ProgressOp × Nat)) :
    (run_progress delay ops).delay = delay := by
  induction ops using List.reverseRecOn with
  | nil => rfl
  | append_singleton l p ih =>
    have : run_progress delay (l ++ [p]) = progress_step (run_progress delay l) p := by
      simp [run_progress, List.foldl_append]
    rw [this, (progress_step_spec _ p).1, ih]

/-- C8 counterexample: with a 500 ms delay, setting a message and then
calling force_visible, both immediately at time 0, makes the indicator
visible even though the delay has not elapsed at any operation; the claim
that visibility requires the delay to have elapsed fails on this
sequence. -/
theorem progress_force_visible_counterexample :
    (run_progress 500 [(ProgressOp.set_message "x", 0),
        (ProgressOp.force_visible, 0)]).visible = true
    ∧ ([(ProgressOp.set_message "x", 0), (ProgressOp.force_visible, 0)].all
        (fun p => decide (p.2 < 500))) = true := by decide

/-- C8 amended: for every sequence of timed ProgressReporter operations,
if the indicator is visible at the end then a content marker has been set,
and, provided force_visible (which deliberately bypasses the delay) is not
among the operations, some operation ran at or after the configured
delay. -/
theorem progress_hidden_until_content_and_delay (delay : Nat)
    (ops : List (ProgressOp × Nat))
    (h : (run_progress delay ops).visible = true) :
    (run_progress delay ops).has_content = true
    ∧ (ProgressOp.force_visible ∉ ops.map Prod.fst → ∃ p ∈ ops, delay ≤ p.2) := by
  induction ops using List.reverseRecOn with
  | nil => simp [run_progress, progress_new] at h
  | append_singleton l p ih =>
    have happ : run_progress delay (l ++ [p]) = progress_step (run_progress delay l) p := by
      simp [run_progress, List.foldl_append]
    rw [happ] at h ⊢
    have spec := progress_step_spec (run_progress delay l) p
    cases hvis : (run_progress delay l).visible with
    | true =>
      obtain ⟨hcont_l, hex⟩ := ih hvis
      refine ⟨spec.2.1 hcont_l, ?_⟩
      intro hforce
      have hforce_l : ProgressOp.force_visible ∉ l.map Prod.fst := by
        simp only [List.map_append, List.mem_append] at hforce
        exact fun hm => hforce (Or.inl hm)
      obtain ⟨q, hq, hdel⟩ := hex hforce_l
      exact ⟨q, List.mem_append_left _ hq, hdel⟩
    | false =>
      rcases spec.2.2 h with hcontra | ⟨hcont, hor⟩
      · rw [hvis] at hcontra; exact absurd hcontra (by simp)
      · refine ⟨hcont, ?_⟩
        intro hforce
        rcases hor with hdel | hfv
        · rw [run_progress_delay_eq] at hdel
          exact ⟨p, List.mem_append_right _ (by simp), hdel⟩
        · exfalso
          apply hforce
          simp only [List.map_append, List.mem_append]
          right
          simp [hfv]

/-- C8 witness: setting a message after the delay elapsed makes the
indicator visible, and the theorem yields content plus a sufficiently late
operation for this force-free sequence. -/
theorem progress_hidden_until_witness :
    (run_progress 500 [(ProgressOp.set_message "x", 600)]).has_content = true
    ∧ (ProgressOp.force_visible ∉ ([(ProgressOp.set_message "x", 600)].map Prod.fst)
        → ∃ p ∈ [(ProgressOp.set_message "x", 600)], 500 ≤ p.2) :=
  progress_hidden_until_content_and_delay 500 [(ProgressOp.set_message "x", 600)] (by decide)

/-! ## Outcome map helper lemmas -/

theorem insert_outcome_self (results : PolicyOutcomes) (metric : Metric)
    (oc : PolicyOutcome) : insert_outcome results metric oc metric = some oc := by
  simp [insert_outcome]

theorem insert_outcome_ne (results : PolicyOutcomes) (metric : Metric) (oc : PolicyOutcome)
    {m : Metric} (h : m ≠ metric) : insert_outcome results metric oc m = results m := by
  simp [insert_outcome, h]

/-- The generic policy sweep yields a Match exactly when some applicable
policy satisfies the predicate. -/
theorem apply_generic_policy_match_iff {π : Type} (dt : DependencyType)
    (scaling : Metric → Option Rat) (metric : Metric) (policies : List π)
    (dep_types : π → DependencyTypes) (points : π → Rat) (pred : π → Bool)
    (success_msg : π → String) (failure_msg : String) :
    (∃ pts info, apply_generic_policy dt scaling metric policies dep_types points pred
        success_msg failure_msg = PolicyOutcome.Match pts info)
    ↔ ∃ p ∈ policies.filter (fun p => (dep_types p).contains dt), pred p = true := by
  unfold apply_generic_policy
  cases hf : (policies.filter fun p => (dep_types p).contains dt).find? pred with
  | some p =>
    simp only [hf]
    constructor
    · intro _
      exact ⟨p, List.mem_of_find?_eq_some hf, List.find?_some hf⟩
    · intro _
      exact ⟨_, _, rfl⟩
  | none =>
    simp only [hf]
    constructor
    · rintro ⟨pts, info, hmatch⟩
      exact absurd hmatch (by simp)
    · rintro ⟨p, hp, hpred⟩
      have := List.find?_eq_none.mp hf p hp
      exact absurd hpred (by simpa using this)

/-! ## C7: the commit activity window is hard coded to 90 days -/

/-- C7: with Found hosting data, the commit activity metric records a
Match exactly when some applicable commit_activity policy has max_days
equal to 90 and its min_count at most the observed commits of the last
three months; in particular a policy with any other window never
matches. -/
theorem commit_activity_match_iff (cfg : Config) (facts : CrateFacts) (dt : DependencyType)
    (gh : HostingData) (results : PolicyOutcomes)
    (h : facts.hosting_data = .found gh) :
    (∃ pts info, (MetricCalculator.commit_activity cfg facts dt results) Metric.CommitActivity
        = some (PolicyOutcome.Match pts info))
    ↔ ∃ p ∈ cfg.commit_activity.filter (fun p => p.dependency_types.contains dt),
        p.max_days = 90 ∧ p.min_count ≤ gh.commits_last_3_months := by
  unfold MetricCalculator.commit_activity with_found
  simp only [h, insert_outcome_self, Option.some.injEq]
  refine Iff.trans
    (apply_generic_policy_match_iff dt cfg.metric_scaling Metric.CommitActivity
      cfg.commit_activity _ _ _ _ _) ?_
  refine exists_congr fun p => and_congr_right fun _ => ?_
  by_cases h90 : p.max_days = MetricCalculator.SUPPORTED_DAYS <;>
    simp [h90, MetricCalculator.SUPPORTED_DAYS]

/-- C7 witness: the characterization instantiated on a configuration with
one 90 day policy and concrete hosting data. -/
theorem commit_activity_match_iff_witness :
    (∃ pts info, (MetricCalculator.commit_activity commit_cfg all_found_facts
        DependencyType.standard (fun _ => none)) Metric.CommitActivity
        = some (PolicyOutcome.Match pts info))
    ↔ ∃ p ∈ commit_cfg.commit_activity.filter
          (fun p => p.dependency_types.contains DependencyType.standard),
        p.max_days = 90 ∧ p.min_count ≤ sample_hosting_data.commits_last_3_months :=
  commit_activity_match_iff commit_cfg all_found_facts .standard sample_hosting_data
    (fun _ => none) rfl

/-! ## C4: license policy evaluation -/

/-- The boolean requirement check agrees with the spec side membership
predicate. -/
theorem req_is_allowed_iff (allowed : List String) (req : SpdxReq) :
    req_is_allowed allowed req = true ↔ req_allowed_spec allowed req := by
  unfold req_is_allowed req_allowed_spec allowed_contains
  cases hid : req.license_id with
  | none => simp [hid]
  | some id => simp [hid, List.any_eq_true, contains_substr]

/-- C4: LicensePolicy::check_license on an observed license string: when
the string parses to an expression whose rendered text contains the AND
operator (and the expression has at least one requirement, which every
parsed SPDX expression does), the check succeeds exactly when every
requirement is in the allowed set; when it parses without AND, exactly
when at least one requirement is allowed; and when parsing fails, exactly
when some allowed name is a case insensitive substring of the license
string. Membership of a requirement is case insensitive substring match in
either direction, and a requirement with no recognized license id is
never allowed. -/
theorem check_license_spec (p : LicensePolicy) (parse : SpdxParse) (raw : String) :
    (∀ e, parse raw = some e → e.requirements ≠ [] →
      contains_substr e.display " AND " = true →
      (p.check_license parse raw = true ↔
        ∀ req ∈ e.requirements, req_allowed_spec p.licenses req))
    ∧ (∀ e, parse raw = some e → e.requirements ≠ [] →
      contains_substr e.display " AND " = false →
      (p.check_license parse raw = true ↔
        ∃ req ∈ e.requirements, req_allowed_spec p.licenses req))
    ∧ (parse raw = none →
      (p.check_license parse raw = true ↔
        ∃ a ∈ p.licenses, a.toLower.toList <:+: raw.toLower.toList)) := by
  refine ⟨?_, ?_, ?_⟩
  · intro e he hne hand
    have hne' : e.requirements.isEmpty = false := by
      cases hE : e.requirements.isEmpty
      · rfl
      · exact absurd (List.isEmpty_iff.mp hE) hne
    unfold LicensePolicy.check_license
    rw [he]
    unfold evaluate_spdx_expression
    simp only [hne', hand, Bool.false_eq_true, if_false, if_true]
    constructor
    · intro hb
      rw [Bool.and_eq_true] at hb
      obtain ⟨hnd, _⟩ := hb
      rw [Bool.not_eq_true'] at hnd
      intro req hreq
      by_cases hra : req_is_allowed p.licenses req = true
      · exact (req_is_allowed_iff _ _).mp hra
      · exfalso
        have : e.requirements.any (fun r => !(req_is_allowed p.licenses r)) = true :=
          List.any_eq_true.mpr ⟨req, hreq, by simp [Bool.eq_false_iff.mpr hra]⟩
        rw [hnd] at this
        exact absurd this (by simp)
    · intro hall
      have hdis : e.requirements.any (fun r => !(req_is_allowed p.licenses r)) = false := by
        cases hD : e.requirements.any (fun r => !(req_is_allowed p.licenses r))
        · rfl
        · obtain ⟨r0, hr0, hr0p⟩ := List.any_eq_true.mp hD
          have := (req_is_allowed_iff _ _).mpr (hall r0 hr0)
          simp [this] at hr0p
      obtain ⟨r0, hr0⟩ := List.exists_mem_of_ne_nil e.requirements hne
      have hal : e.requirements.any (req_is_allowed p.licenses) = true :=
        List.any_eq_true.mpr ⟨r0, hr0, (req_is_allowed_iff _ _).mpr (hall r0 hr0)⟩
      simp [hdis, hal]
  · intro e he hne hand
    have hne' : e.requirements.isEmpty = false := by
      cases hE : e.requirements.isEmpty
      · rfl
      · exact absurd (List.isEmpty_iff.mp hE) hne
    unfold LicensePolicy.check_license
    rw [he]
    unfold evaluate_spdx_expression
    simp only [hne', hand, Bool.false_eq_true, if_false]
    simp [List.any_eq_true, req_is_allowed_iff]
  · intro hnone
    unfold LicensePolicy.check_license
    rw [hnone]
    simp [List.any_eq_true, contains_substr]

/-- C4 witness: the characterization instantiated on the AND expression
of two known licenses with the MIT allowed set. -/
theorem check_license_spec_witness :
    LicensePolicy.check_license
        (fun _ => some ⟨[⟨some "MIT"⟩, ⟨some "Apache-2.0"⟩], "MIT AND Apache-2.0"⟩)
        { licenses := ["MIT"], points := 1 } "MIT AND Apache-2.0" = true
      ↔ ∀ req ∈ ([⟨some "MIT"⟩, ⟨some "Apache-2.0"⟩] : List SpdxReq),
          req_allowed_spec ["MIT"] req :=
  (check_license_spec { licenses := ["MIT"], points := 1 }
      (fun _ => some ⟨[⟨some "MIT"⟩, ⟨some "Apache-2.0"⟩], "MIT AND Apache-2.0"⟩)
      "MIT AND Apache-2.0").1
    ⟨[⟨some "MIT"⟩, ⟨some "Apache-2.0"⟩], "MIT AND Apache-2.0"⟩
    rfl (by decide) (by decide)

/-! ## C1: metrics with missing provider data -/

theorem with_found_ne {α : Type} (field : ProviderResult α) (res : PolicyOutcomes)
    (metric : Metric) (g : α → PolicyOutcome) {m : Metric} (h : m ≠ metric) :
    with_found field res metric g m = res m := by
  cases field <;> simp [with_found, insert_outcome_ne _ _ _ h]

theorem with_found_not_found {α : Type} (field : ProviderResult α) (res : PolicyOutcomes)
    (metric : Metric) (g : α → PolicyOutcome) (h : field.is_found = false) :
    with_found field res metric g = res := by
  cases field with
  | found d => simp [ProviderResult.is_found] at h
  | crateNotFound => rfl
  | versionNotFound => rfl
  | error msg => rfl

theorem with_docs_metrics_ne (field : ProviderResult DocsData) (res : PolicyOutcomes)
    (metric : Metric) (g : DocsMetrics → PolicyOutcome) {m : Metric} (h : m ≠ metric) :
    with_docs_metrics field res metric g m = res m := by
  cases field with
  | found dd => cases hs : dd.state <;> simp [with_docs_metrics, hs, insert_outcome_ne _ _ _ h]
  | crateNotFound => rfl
  | versionNotFound => rfl
  | error msg => rfl

theorem with_docs_metrics_not_found (field : ProviderResult DocsData) (res : PolicyOutcomes)
    (metric : Metric) (g : DocsMetrics → PolicyOutcome) (h : field.is_found = false) :
    with_docs_metrics field res metric g = res := by
  cases field with
  | found dd => simp [ProviderResult.is_found] at h
  | crateNotFound => rfl
  | versionNotFound => rfl
  | error msg => rfl

theorem require_found_found {α : Type} {field : ProviderResult α} {d : α}
    (h : field = .found d) (results : PolicyOutcomes) (metric : Metric)
    (g : α → PolicyOutcome) :
    require_found field results metric g = .ok (insert_outcome results metric (g d)) := by
  subst h; rfl

theorem except_bind_ok {ε α β : Type} (a : α) (f : α → Except ε β) :
    (Except.ok a : Except ε α) >>= f = f a := rfl

theorem except_error_bind {ε α β : Type} (e : ε) (f : α → Except ε β) :
    (Except.error e : Except ε α) >>= f = .error e := rfl

theorem except_pure_eq_ok {ε α : Type} (a : α) : (pure a : Except ε α) = .ok a := rfl

/-- With Found version data, release_count always succeeds and records the
generic policy outcome (when no policy applies, both the early return of
the source and the generic sweep record the no-policy NoMatch, so the two
coincide). -/
theorem release_count_found {facts : CrateFacts} {cvd : CrateVersionData}
    (hv : facts.crate_version_data = .found cvd) (now : Int) (cfg : Config)
    (dt : DependencyType) (results : PolicyOutcomes) :
    MetricCalculator.release_count now cfg facts dt results
      = .ok (insert_outcome results .ReleaseCount
          (apply_generic_policy dt cfg.metric_scaling .ReleaseCount cfg.release_count
            (fun p => p.dependency_types) (fun p => p.points)
            (fun p => decide (p.min_count ≤ count_releases_in_period now cvd p.max_days))
            (fun p => toString (count_releases_in_period now cvd p.max_days)
              ++ " releases in " ++ toString p.max_days ++ " days")
            "insufficient recent releases")) := by
  unfold MetricCalculator.release_count
  split
  · rename_i hEmp
    have hnil : (cfg.release_count.filter fun p => p.dependency_types.contains dt) = [] :=
      List.isEmpty_iff.mp hEmp
    simp [apply_generic_policy, hnil]
  · exact require_found_found hv results .ReleaseCount _

/-- C1 counterexample: with registry version data missing, the calculator
panics (the unreachable! assertion in MetricCalculator::license) instead
of returning normally with the License metric omitted; the claim that
every metric with missing required data is silently omitted fails here. -/
theorem calculate_panics_on_missing_version_data :
    (FactsField.version_data ∈ required_facts Metric.License)
    ∧ facts_field_found missing_version_facts FactsField.version_data = false
    ∧ (calculate no_parse 0 empty_config missing_version_facts
        DependencyType.standard).isOk = false := by decide

set_option maxHeartbeats 3000000 in
/-- C1 amended: for every metric whose required provider fields are among
the optional ones (hosting, advisory, codebase, coverage, docs data, that
is neither registry field), if some required field of the facts is not
Found then any normal return of the calculator leaves that metric absent
from the outcome map. (For metrics requiring registry data the calculator
does not return normally when that data is missing: it panics, see the
accompanying counterexample.) -/
theorem metric_omitted_when_optional_data_missing (parse : SpdxParse) (now : Int)
    (cfg : Config) (facts : CrateFacts) (dt : DependencyType) (m : Metric)
    (hopt : ∀ f ∈ required_facts m,
      f ≠ FactsField.version_data ∧ f ≠ FactsField.overall_data)
    (hmiss : ∃ f ∈ required_facts m, facts_field_found facts f = false)
    (out : PolicyOutcomes) (hok : calculate parse now cfg facts dt = .ok out) :
    out m = none := by
  cases hv : facts.crate_version_data with
  | found cvd =>
    cases ho : facts.crate_overall_data with
    | found cod =>
      unfold calculate at hok
      simp only [MetricCalculator.license, MetricCalculator.age,
        MetricCalculator.min_version, MetricCalculator.overall_download_count,
        MetricCalculator.one_month_download_count, MetricCalculator.overall_owner_count,
        MetricCalculator.team_owner_count, MetricCalculator.user_owner_count,
        MetricCalculator.dependent_count,
        require_found_found hv, require_found_found ho, release_count_found hv,
        except_bind_ok, except_pure_eq_ok, Except.ok.injEq] at hok
      subst hok
      obtain ⟨f, hf, hnf⟩ := hmiss
      cases m <;>
        first
        | (refine absurd rfl (hopt FactsField.version_data ?_).1
           decide)
        | (refine absurd rfl (hopt FactsField.overall_data ?_).2
           decide)
        | exact absurd hf (List.not_mem_nil _)
        | (simp only [required_facts, List.mem_singleton] at hf
           subst hf
           simp only [facts_field_found] at hnf
           simp [MetricCalculator.direct_dependency_count,
             MetricCalculator.doc_coverage_percentage, MetricCalculator.broken_doc_link_count,
             MetricCalculator.code_coverage_percentage, MetricCalculator.fully_safe_code,
             MetricCalculator.transitive_dependency_count, MetricCalculator.example_count,
             MetricCalculator.repo_contributor_count, MetricCalculator.repo_star_count,
             MetricCalculator.repo_fork_count, MetricCalculator.repo_subscriber_count,
             MetricCalculator.commit_activity, MetricCalculator.open_issue_count,
             MetricCalculator.closed_issue_count, MetricCalculator.issue_responsiveness,
             MetricCalculator.open_pull_request_count,
             MetricCalculator.closed_pull_request_count,
             MetricCalculator.pull_request_responsiveness,
             MetricCalculator.vulnerability_count, MetricCalculator.low_vulnerability_count,
             MetricCalculator.medium_vulnerability_count,
             MetricCalculator.high_vulnerability_count,
             MetricCalculator.critical_vulnerability_count, MetricCalculator.warning_count,
             MetricCalculator.notice_warning_count,
             MetricCalculator.unmaintained_warning_count,
             MetricCalculator.unsound_warning_count, MetricCalculator.yanked_warning_count,
             MetricCalculator.historical_vulnerability_count,
             MetricCalculator.historical_low_vulnerability_count,
             MetricCalculator.historical_medium_vulnerability_count,
             MetricCalculator.historical_high_vulnerability_count,
             MetricCalculator.historical_critical_vulnerability_count,
             MetricCalculator.historical_warning_count,
             MetricCalculator.historical_notice_warning_count,
             MetricCalculator.historical_unmaintained_warning_count,
             MetricCalculator.historical_unsound_warning_count,
             MetricCalculator.historical_yanked_warning_count,
             hnf, with_found_ne, with_found_not_found, with_docs_metrics_ne,
             with_docs_metrics_not_found, insert_outcome_ne])
    | crateNotFound =>
      unfold calculate at hok
      simp only [MetricCalculator.license, MetricCalculator.age, require_found, hv, ho,
        except_bind_ok, except_error_bind] at hok
      exact absurd hok (by simp)
    | versionNotFound =>
      unfold calculate at hok
      simp only [MetricCalculator.license, MetricCalculator.age, require_found, hv, ho,
        except_bind_ok, except_error_bind] at hok
      exact absurd hok (by simp)
    | error msg =>
      unfold calculate at hok
      simp only [MetricCalculator.license, MetricCalculator.age, require_found, hv, ho,
        except_bind_ok, except_error_bind] at hok
      exact absurd hok (by simp)
  | crateNotFound =>
    unfold calculate at hok
    simp only [MetricCalculator.license, require_found, hv, except_error_bind] at hok
    exact absurd hok (by simp)
  | versionNotFound =>
    unfold calculate at hok
    simp only [MetricCalculator.license, require_found, hv, except_error_bind] at hok
    exact absurd hok (by simp)
  | error msg =>
    unfold calculate at hok
    simp only [MetricCalculator.license, require_found, hv, except_error_bind] at hok
    exact absurd hok (by simp)

set_option maxHeartbeats 3000000 in
/-- C1 witness: with advisory data failed and everything else Found, the
calculator returns normally and the VulnerabilityCount metric is absent
from the outcome map. -/
theorem metric_omitted_witness :
    (∀ f ∈ required_facts Metric.VulnerabilityCount,
      f ≠ FactsField.version_data ∧ f ≠ FactsField.overall_data)
    ∧ (∃ f ∈ required_facts Metric.VulnerabilityCount,
        facts_field_found missing_advisory_facts f = false)
    ∧ missing_advisory_outcome Metric.VulnerabilityCount = none :=
  ⟨by decide, by decide,
    metric_omitted_when_optional_data_missing no_parse 0 empty_config
      missing_advisory_facts .standard Metric.VulnerabilityCount (by decide) (by decide)
      missing_advisory_outcome rfl⟩

/-! ## C2: the overall score formula -/

theorem foldl_points_eq_sum (l : List (Metric × PolicyOutcome)) :
    ∀ init : Rat, l.foldl (fun acc e => acc + outcome_points e.2) init
      = init + (l.map (fun e => outcome_points e.2)).sum := by
  induction l with
  | nil => intro init; simp
  | cons e rest ih => intro init; simp [ih, add_assoc]

theorem outcome_entries_length (d : PolicyOutcomes) :
    (outcome_entries d).length = total_outcome_count d := by
  unfold outcome_entries total_outcome_count
  have h : ∀ l : List Metric,
      (l.filterMap (fun m => (d m).map (fun oc => (m, oc)))).length
        = (l.filter (fun m => (d m).isSome)).length := by
    intro l
    induction l with
    | nil => rfl
    | cons m rest ih => cases hm : d m <;> simp [hm, ih]
  exact h all_metrics

theorem entries_points_sum (d : PolicyOutcomes) :
    ((outcome_entries d).map (fun e => outcome_points e.2)).sum = matched_points_sum d := by
  unfold outcome_entries matched_points_sum
  have h : ∀ l : List Metric,
      ((l.filterMap (fun m => (d m).map (fun oc => (m, oc)))).map
        (fun e => outcome_points e.2)).sum
      = ((l.filterMap d).filterMap (fun oc =>
          match oc with
          | .Match points _ => some points
          | .NoMatch _ => none)).sum := by
    intro l
    induction l with
    | nil => rfl
    | cons m rest ih =>
      cases hm : d m with
      | none => simp only [List.filterMap_cons, hm, Option.map_none', ih]
      | some oc =>
        cases oc with
        | Match points info =>
          simp only [List.filterMap_cons, hm, Option.map_some', List.map_cons, List.sum_cons]
          rw [ih]
          rfl
        | NoMatch reason =>
          simp only [List.filterMap_cons, hm, Option.map_some', List.map_cons, List.sum_cons]
          rw [ih]
          show outcome_points (PolicyOutcome.NoMatch reason) + _ = _
          rw [show outcome_points (PolicyOutcome.NoMatch reason) = 0 from rfl, zero_add]
  exact h all_metrics

/-- C2: whenever Ranker::rank returns normally with a non empty outcome
map, the overall score equals round2 of the sum of points over Match
outcomes (NoMatch outcomes contribute 0 but are counted) divided by the
total number of outcomes in the map. -/
theorem rank_overall_score_formula (parse : SpdxParse) (now : Int) (cfg : Config)
    (facts : CrateFacts) (dt : DependencyType) (out : RankingOutcome)
    (hok : rank parse now cfg facts dt = .ok out)
    (hne : total_outcome_count out.details ≠ 0) :
    out.overall_score
      = round2 (matched_points_sum out.details
          / (total_outcome_count out.details : Rat)) := by
  unfold rank at hok
  cases hc : calculate parse now cfg facts dt with
  | error e =>
    rw [hc, except_error_bind] at hok
    exact absurd hok (by simp)
  | ok po =>
    rw [hc, except_bind_ok] at hok
    simp only [except_pure_eq_ok, Except.ok.injEq] at hok
    subst hok
    have hd : total_outcome_count po ≠ 0 := hne
    have hE : (outcome_entries po).isEmpty = false := by
      cases hEq : (outcome_entries po).isEmpty
      · rfl
      · exfalso
        apply hd
        rw [← outcome_entries_length po, List.isEmpty_iff.mp hEq]
        rfl
    show (if (outcome_entries po).isEmpty then (0 : Rat)
        else
          (rust_round (((outcome_entries po).foldl (fun acc e => acc + outcome_points e.2) 0
              / ((outcome_entries po).length : Rat)) * 100) : Rat) / 100)
      = round2 (matched_points_sum po / (total_outcome_count po : Rat))
    rw [hE]
    simp only [Bool.false_eq_true, if_false]
    rw [foldl_points_eq_sum, zero_add, entries_points_sum, outcome_entries_length]
    rfl

set_option maxHeartbeats 3000000 in
/-- C2 witness: the score formula instantiated on the empty configuration
over fully Found facts (44 outcomes, all NoMatch, score 0). -/
theorem rank_overall_score_formula_witness :
    total_outcome_count empty_config_outcome.details ≠ 0
    ∧ empty_config_outcome.overall_score
      = round2 (matched_points_sum empty_config_outcome.details
          / (total_outcome_count empty_config_outcome.details : Rat)) :=
  ⟨by decide,
    rank_overall_score_formula no_parse 0 empty_config all_found_facts .standard
      empty_config_outcome rfl (by decide)⟩

/-! ## C6: the advisory scan preserves the input spec multiset -/

theorem scan_entry_update_fst (a : Advisory) (e : ScanEntry) :
    (scan_entry_update a e).1 = e.1 := by
  rcases e with ⟨spec, r⟩
  cases r <;> rfl

theorem scan_map_specs_cons (b : String × List ScanEntry) (rest : ScanMap) :
    scan_map_specs (b :: rest) = b.2.map Prod.fst ++ scan_map_specs rest := by
  simp [scan_map_specs]

/-- Helper permutation: moving a trailing singleton across an append. -/
theorem append_singleton_perm {α : Type} (A S : List α) (x : α) :
    ((A ++ [x]) ++ S).Perm ((A ++ S) ++ [x]) := by
  rw [List.append_assoc, List.append_assoc]
  exact List.Perm.append_left A List.perm_append_comm

/-- Pushing an entry into the map appends exactly its spec to the stored
spec multiset. -/
theorem scan_map_push_specs (m : ScanMap) (name : String) (e : ScanEntry) :
    (scan_map_specs (scan_map_push m name e)).Perm (scan_map_specs m ++ [e.1]) := by
  induction m with
  | nil =>
    simp only [scan_map_push, scan_map_specs, List.map_cons, List.map_nil,
      List.flatten, List.append_nil]
    exact List.Perm.refl _
  | cons b rest ih =>
    rcases b with ⟨k, es⟩
    by_cases hk : k = name
    · simp only [scan_map_push, if_pos hk]
      rw [scan_map_specs_cons, scan_map_specs_cons]
      have h1 : ((es ++ [e]).map Prod.fst) = es.map Prod.fst ++ [e.1] := by
        simp
      rw [h1]
      exact append_singleton_perm (es.map Prod.fst) (scan_map_specs rest) e.1
    · simp only [scan_map_push, if_neg hk]
      rw [scan_map_specs_cons, scan_map_specs_cons, List.append_assoc]
      exact List.Perm.append_left (es.map Prod.fst) ih

/-- Seeding the map from the input spec list appends the inputs to the
stored spec multiset. -/
theorem build_map_specs (crates : List CrateSpec) :
    ∀ m : ScanMap,
      (scan_map_specs (crates.foldl (fun m crate_spec =>
        scan_map_push m crate_spec.name
          (crate_spec, ProviderResult.found AdvisoryData.default)) m)).Perm
      (scan_map_specs m ++ crates) := by
  induction crates with
  | nil =>
    intro m
    simp only [List.foldl_nil, List.append_nil]
    exact List.Perm.refl _
  | cons spec rest ih =>
    intro m
    rw [List.foldl_cons]
    refine (ih _).trans ?_
    have h2 := scan_map_push_specs m spec.name (spec, ProviderResult.found AdvisoryData.default)
    refine (h2.append_right rest).trans ?_
    rw [List.append_assoc]
    exact List.Perm.refl _

/-- One advisory sweep never changes the stored specs. -/
theorem scan_map_apply_specs (m : ScanMap) (a : Advisory) :
    scan_map_specs (scan_map_apply m a) = scan_map_specs m := by
  unfold scan_map_apply
  induction m with
  | nil => rfl
  | cons b rest ih =>
    rw [List.map_cons, scan_map_specs_cons, scan_map_specs_cons, ih]
    by_cases hb : b.1 = a.package
    · rw [if_pos hb]
      simp [List.map_map, Function.comp, scan_entry_update_fst]
    · rw [if_neg hb]

theorem scan_fold_apply_specs (database : List Advisory) :
    ∀ m : ScanMap, scan_map_specs (database.foldl scan_map_apply m) = scan_map_specs m := by
  induction database with
  | nil => intro m; rfl
  | cons a rest ih => intro m; rw [List.foldl_cons, ih, scan_map_apply_specs]

/-- C6: the advisory scan emits exactly one (spec, result) pair per input
occurrence: the list of specs in the output is a permutation of the input
spec list (duplicates included). -/
theorem scan_advisories_specs_perm (database : List Advisory) (crates : List CrateSpec) :
    ((scan_advisories database crates).map Prod.fst).Perm crates := by
  show (scan_map_specs (database.foldl scan_map_apply
      (crates.foldl (fun m crate_spec => scan_map_push m crate_spec.name
        (crate_spec, ProviderResult.found AdvisoryData.default)) []))).Perm crates
  rw [scan_fold_apply_specs]
  have h := build_map_specs crates []
  simpa [scan_map_specs] using h

/-! ## C9: the advisory scan always returns Found -/

/-- Folding advisories over a Found entry keeps it Found and counts each
advisory (historical always, version specific when the range covers the
version). -/
theorem apply_advisories_found (l : List Advisory) (spec : CrateSpec) :
    ∀ d : AdvisoryData,
      apply_advisories l (spec, ProviderResult.found d)
        = (spec, ProviderResult.found (l.foldl (fun d a =>
            let d := d.count_advisory_historical a
            if advisory_is_vulnerable a spec.version then d.count_advisory_for_version a
            else d) d)) := by
  induction l with
  | nil => intro d; rfl
  | cons a rest ih =>
    intro d
    simp only [apply_advisories, List.foldl_cons, scan_entry_update] at ih ⊢
    exact ih _

/-- The advisory sweep over the whole database rewrites every bucket by
folding the advisories matching its key over each entry. -/
theorem scan_fold_apply_eq (database : List Advisory) :
    ∀ m : ScanMap,
      database.foldl scan_map_apply m
        = m.map (fun b => (b.1, b.2.map (apply_advisories
            (database.filter (fun a => a.package = b.1))))) := by
  induction database with
  | nil =>
    intro m
    have hid : apply_advisories ([] : List Advisory) = id := by
      funext e; rfl
    simp [List.filter_nil, hid]
  | cons a rest ih =>
    intro m
    rw [List.foldl_cons, ih (scan_map_apply m a)]
    unfold scan_map_apply
    rw [List.map_map]
    apply List.map_congr_left
    intro b _
    simp only [Function.comp]
    by_cases hb : b.1 = a.package
    · simp only [if_pos hb, List.filter_cons]
      rw [if_pos (by simp [hb])]
      congr 1
      rw [List.map_map]
      apply List.map_congr_left
      intro e _
      rfl
    · simp only [if_neg hb, List.filter_cons]
      rw [if_neg (by simp only [decide_eq_true_eq]; intro hcon; exact hb hcon.symm)]

/-- Pushing entries whose key is their spec name and whose result is the
seed preserves that shape for every stored entry. -/
theorem scan_map_push_invariant (P : String → ScanEntry → Prop) (m : ScanMap)
    (name : String) (e : ScanEntry)
    (hm : ∀ b ∈ m, ∀ x ∈ b.2, P b.1 x) (he : P name e) :
    ∀ b ∈ scan_map_push m name e, ∀ x ∈ b.2, P b.1 x := by
  induction m with
  | nil =>
    intro b hb x hx
    simp only [scan_map_push, List.mem_singleton] at hb
    subst hb
    simp only [List.mem_singleton] at hx
    subst hx
    exact he
  | cons b0 rest ih =>
    rcases b0 with ⟨k, es⟩
    intro b hb x hx
    have hm0 := hm (k, es) (List.mem_cons_self _ _)
    have hmrest : ∀ b ∈ rest, ∀ x ∈ b.2, P b.1 x :=
      fun b hb => hm b (List.mem_cons_of_mem _ hb)
    by_cases hk : k = name
    · simp only [scan_map_push, if_pos hk] at hb
      rcases List.mem_cons.mp hb with hb1 | hb2
      · subst hb1
        rcases List.mem_append.mp hx with hx1 | hx2
        · exact hm0 x hx1
        · simp only [List.mem_singleton] at hx2
          subst hx2
          rw [hk]
          exact he
      · exact hmrest b hb2 x hx
    · simp only [scan_map_push, if_neg hk] at hb
      rcases List.mem_cons.mp hb with hb1 | hb2
      · subst hb1
        exact hm0 x hx
      · exact ih hmrest b hb2 x hx

/-- Every entry seeded by the scan carries its spec name as bucket key and
the default Found result. -/
theorem build_map_invariant (crates : List CrateSpec) :
    ∀ m : ScanMap,
      (∀ b ∈ m, ∀ e ∈ b.2, e.1.name = b.1 ∧ e.2 = ProviderResult.found AdvisoryData.default) →
      ∀ b ∈ crates.foldl (fun m crate_spec =>
          scan_map_push m crate_spec.name
            (crate_spec, ProviderResult.found AdvisoryData.default)) m,
        ∀ e ∈ b.2, e.1.name = b.1 ∧ e.2 = ProviderResult.found AdvisoryData.default := by
  induction crates with
  | nil => intro m h; exact h
  | cons spec rest ih =>
    intro m h
    rw [List.foldl_cons]
    exact ih _ (scan_map_push_invariant
      (fun k x => x.1.name = k ∧ x.2 = ProviderResult.found AdvisoryData.default)
      m spec.name _ h ⟨rfl, rfl⟩)

/-- C9: every output of the advisory scan is Found: the result for a spec
is Found of the data obtained by counting exactly the advisories whose
package equals the spec name, and a spec whose name matches no advisory of
the database (in particular a name absent from it) gets Found of the
default data, whose counters are all zero; no output is ever
CrateNotFound, VersionNotFound or Error. -/
theorem scan_advisories_always_found (database : List Advisory) (crates : List CrateSpec)
    (s : CrateSpec) (r : ProviderResult AdvisoryData)
    (hmem : (s, r) ∈ scan_advisories database crates) :
    r = ProviderResult.found (scan_result_for database s)
    ∧ ((∀ a ∈ database, a.package ≠ s.name) →
        r = ProviderResult.found AdvisoryData.default) := by
  have main : r = ProviderResult.found (scan_result_for database s) := by
    have hmem' : (s, r) ∈
        (((crates.foldl (fun m crate_spec => scan_map_push m crate_spec.name
            (crate_spec, ProviderResult.found AdvisoryData.default)) [])).map
          (fun b => ((b.1, b.2.map (apply_advisories
            (database.filter (fun a => a.package = b.1))))).2)).flatten := by
      have h := hmem
      simp only [scan_advisories] at h
      rw [scan_fold_apply_eq] at h
      rw [List.map_map] at h
      exact h
    obtain ⟨es, hes, hin⟩ := List.mem_flatten.mp hmem'
    obtain ⟨b, hb, hbe⟩ := List.mem_map.mp hes
    subst hbe
    simp only at hin
    obtain ⟨e0, he0, heq⟩ := List.mem_map.mp hin
    have hinv := build_map_invariant crates []
      (by intro b hb; simp only [List.not_mem_nil] at hb) b hb e0 he0
    obtain ⟨hname, hres⟩ := hinv
    rcases e0 with ⟨e0s, e0r⟩
    simp only at hname hres
    subst hres
    rw [apply_advisories_found] at heq
    have hs : e0s = s := congrArg Prod.fst heq
    have hr : ProviderResult.found _ = r := congrArg Prod.snd heq
    rw [← hr]
    subst hs
    unfold scan_result_for matching_advisories
    rw [hname]
  refine ⟨main, fun hnone => ?_⟩
  have hnil : matching_advisories database s.name = [] := by
    unfold matching_advisories
    rw [List.filter_eq_nil_iff]
    intro a ha
    simp only [decide_eq_true_eq]
    exact hnone a ha
  rw [main]
  unfold scan_result_for
  rw [hnil]
  rfl

/-- C9 witness: scanning an empty database for one spec yields Found of
the default (all zero) advisory data for it. -/
theorem scan_advisories_always_found_witness :
    ProviderResult.found AdvisoryData.default
        = ProviderResult.found (scan_result_for [] ⟨"serde", ⟨1, 0, 0⟩, none⟩)
    ∧ ((∀ a ∈ ([] : List Advisory), a.package ≠ "serde") →
        ProviderResult.found AdvisoryData.default
          = ProviderResult.found AdvisoryData.default) :=
  scan_advisories_always_found [] [⟨"serde", ⟨1, 0, 0⟩, none⟩] ⟨"serde", ⟨1, 0, 0⟩, none⟩
    (ProviderResult.found AdvisoryData.default) (by decide)

end CargoAprz
